import Mathlib

/-!
# ctxjpeg_fb: the libjpeg wrapper behind the JPEG decoding interface

A shallow embedding of `src/ctxjpeg_fb/libjpeg.c` (`start_decode`, `batch_decode`) and of the
request structure of `src/ctxjpeg_fb/jpeg_decode.h`.

Conventions of the embedding.

* Target: 32-bit little-endian (Raspberry Pi): `int`, `unsigned int`, pointers and `size_t`
  are 32 bits wide. Signed fields are `Int`, unsigned fields and pointers are `Nat`; every
  conversion between the two that the C code performs implicitly is written out
  (`toU32`, `toI32`).
* Memory is a map from byte addresses to bytes. The request structure is kept apart from it.
* libjpeg is an external library. The code is embedded over an arbitrary implementation of
  the entry points it calls (`LibJpeg`); every entry point may return or call `error_exit`,
  which `LibJpegCustomErrorExit` turns into a `longjmp` to the `setjmp` of `start_decode`.
  `libjpeg` further down is a reference implementation following the library documentation.
* The calls made to the library are recorded, in order, in `World.calls`.
* The two `while` loops of `start_decode` take a bound on their number of iterations (fuel);
  a run that exhausts it is reported as `hang`.
-/

namespace CtxJpeg

/-! ## Machine integers -/

/-- Conversion of a signed value to `unsigned int` (also `size_t`, pointers): modulo 2^32. -/
def toU32 (i : Int) : Nat := (i % 4294967296).toNat

/-- Conversion of an unsigned value to `int`: two's complement. -/
def toI32 (n : Nat) : Int :=
  if n % 4294967296 < 2147483648 then ((n % 4294967296 : Nat) : Int)
  else ((n % 4294967296 : Nat) : Int) - 4294967296

/-! ## jpeg_decode.h -/

/-- The request structure: `struct JPEG_request` (its `v2` member flattened, then
`output_size`). Pointers are addresses, 0 is `NULL`. -/
structure JPEG_request where
  image : Nat
  size : Nat
  buffer : Nat
  width : Nat
  height : Nat
  stride : Nat
  format : Nat
  priv : Nat
  status : Int
  callback : Nat
  completion_sig : Int
  completion_fd : Int
  crop_x : Int
  crop_y : Int
  crop_width : Int
  crop_height : Int
  output_size : Int
  deriving DecidableEq, Repr

def JPEG_SUCCESS : Int := 0
def JPEG_BUSY : Int := 1
def JPEG_BAD_FIT : Int := 2
def JPEG_SHORT : Int := 3
def JPEG_BAD_DATA : Int := 4
def JPEG_BAD_PARAM : Int := 5
def JPEG_INTERNAL : Int := 6

def TRADITIONAL_JPEG : Nat := 1
def PIXEL_XRGB : Nat := 1
def PIXEL_XBGR : Nat := 2
def CROP_OUTPUT_X_OFFSET : Nat := 0x1000
def CROP_OUTPUT_Y_OFFSET : Nat := 0x2000
def BACKGROUND_DECODING : Nat := 1
def COMPLETION_CALLBACK : Nat := 2
def COMPLETION_SIGNAL : Nat := 4
def COMPLETION_FD : Nat := 8
def BATCH_DECODING : Nat := 0x10
def INDIRECT_ONLY : Nat := 0x20

/-- The capability part of `struct JPEG_decoder` (the entry points are the functions below). -/
structure JPEG_decoder_caps where
  input_formats : Nat
  output_formats : Nat
  completion_handling : Nat
  concurrency : Nat
  queue_limit : Nat
  preferred_alignment : Nat

/-- The static initialiser of `JPEG_decoder` in libjpeg.c. -/
def JPEG_decoder : JPEG_decoder_caps :=
  { input_formats := TRADITIONAL_JPEG
    output_formats := PIXEL_XRGB
    completion_handling := 0
    concurrency := 1
    queue_limit := 0
    preferred_alignment := 4 }

/-! ## jpeglib.h: what `start_decode` uses of it -/

def JPEG_HEADER_OK : Int := 1
def JCS_GRAYSCALE : Nat := 1
def JCS_RGB : Nat := 2
def JCS_EXT_BGRX : Nat := 9

/-- The fields of `struct jpeg_decompress_struct` that `start_decode` reads or writes; the
rest of the structure is the library's own (`internal`). -/
structure jpeg_decompress_struct (π : Type) where
  image_width : Nat
  image_height : Nat
  out_color_space : Nat
  output_components : Nat
  output_height : Nat
  output_scanline : Nat
  internal : π

/-- How a call into the library ends: it returns, or it calls `error_exit`. -/
inductive Ret (α : Type) where
  | error_exit : Ret α
  | value : α → Ret α

/-- The library entry points called by `start_decode` and `srcmgr_jpeg_memory_src`.
`set_src` stands for the stores of `srcmgr_jpeg_memory_src` into the source manager
(`next_input_byte`, `bytes_in_buffer`). `alloc_sarray` returns the initial content of the
sample row it allocates. `jpeg_read_scanlines` is called for one line: it returns the samples
it stored into the row handed to it, or `none` when it read no line. -/
structure LibJpeg (π : Type) where
  jpeg_create_decompress : Ret (jpeg_decompress_struct π)
  alloc_small : jpeg_decompress_struct π → Ret (jpeg_decompress_struct π)
  set_src : jpeg_decompress_struct π → Nat → Nat → jpeg_decompress_struct π
  jpeg_read_header : jpeg_decompress_struct π → Ret (Int × jpeg_decompress_struct π)
  jpeg_start_decompress : jpeg_decompress_struct π → Ret (Bool × jpeg_decompress_struct π)
  alloc_sarray : jpeg_decompress_struct π → Nat → Nat → Ret (List Nat × jpeg_decompress_struct π)
  jpeg_read_scanlines : jpeg_decompress_struct π → Ret (Option (List Nat) × jpeg_decompress_struct π)
  jpeg_abort_decompress : jpeg_decompress_struct π → Ret (jpeg_decompress_struct π)
  jpeg_finish_decompress : jpeg_decompress_struct π → Ret (jpeg_decompress_struct π)
  jpeg_destroy_decompress : jpeg_decompress_struct π → Ret (jpeg_decompress_struct π)

/-- Names of the library entry points, for the call record. -/
inductive LibCall where
  | create_decompress
  | alloc_small
  | read_header
  | start_decompress
  | alloc_sarray
  | read_scanlines
  | abort_decompress
  | finish_decompress
  | destroy_decompress
  deriving DecidableEq, Repr

/-- One call into the library, and whether it ended in `error_exit`. -/
structure Event where
  call : LibCall
  raised : Bool
  deriving DecidableEq, Repr

/-! ## State -/

/-- What is outside the request structure: byte memory and the record of library calls. -/
structure World where
  mem : Nat → Nat
  calls : List Event

/-- Append a library call to the record. -/
def World.log (w : World) (c : LibCall) (raised : Bool) : World :=
  { w with calls := w.calls ++ [⟨c, raised⟩] }

/-- The file-scope variables of libjpeg.c read by `start_decode` and `batch_decode`, and the
allocator: `malloc n` is the address of the block `malloc` hands out for `n` bytes, 0 (`NULL`)
when no memory is left. `start_decode` does not test the result. Memory here is total, so a
store through `NULL`, on which the C code faults, is not represented: what is proved of a
run that stores into the block assumes that the address is not 0. -/
structure Env where
  use_turbo : Bool
  debug_cropping : Bool
  batchDebugging : Bool
  malloc : Nat → Nat

/-- Store of a run of bytes at an address. -/
def write_bytes (m : Nat → Nat) (a : Nat) (bs : List Nat) : Nat → Nat :=
  fun x => if a ≤ x ∧ x < a + bs.length then bs.getD (x - a) 0 else m x

/-- Store of an `unsigned int` (little-endian). -/
def store32 (m : Nat → Nat) (a : Nat) (v : Nat) : Nat → Nat :=
  write_bytes m a [v % 256, v / 256 % 256, v / 65536 % 256, v / 16777216 % 256]

/-- The function `memcpy(dst, src, n)` on non-overlapping blocks. -/
def memcpy (m : Nat → Nat) (dst src n : Nat) : Nat → Nat :=
  fun x => if dst ≤ x ∧ x < dst + n then m (src + (x - dst)) else m x

/-- How a piece of `start_decode` ends: out of fuel, `longjmp` to the `setjmp` point, or
normally. The request structure and the world are those at that moment. -/
inductive Res (α : Type) where
  | hang (r : JPEG_request) (w : World) : Res α
  | longjmp (r : JPEG_request) (w : World) : Res α
  | ok (a : α) (r : JPEG_request) (w : World) : Res α

/-- How a call of `start_decode` ends: out of fuel, or it returns. The request is `none` for
the `NULL` pointer. -/
inductive Outcome where
  | hang (request : Option JPEG_request) (w : World) : Outcome
  | returned (request : Option JPEG_request) (w : World) : Outcome

def Outcome.request : Outcome → Option JPEG_request
  | .hang r _ => r
  | .returned r _ => r

def Outcome.world : Outcome → World
  | .hang _ w => w
  | .returned _ w => w

def Outcome.isReturned : Outcome → Bool
  | .hang _ _ => false
  | .returned _ _ => true

/-- The status field after a call that returned. -/
def Outcome.status : Outcome → Option Int
  | .hang _ _ => none
  | .returned r _ => r.map (fun q => q.status)

/-! ## libjpeg.c -/

/-- The pixel written by the RGB loop: `(((*pSource << 8) + pSource[1]) << 8) + pSource[2]`,
stored into an `unsigned int`. -/
def pack_rgb (r g b : Nat) : Nat := ((((r <<< 8) + g) <<< 8) + b) % 4294967296

/-- The loop `for (column = cinfo.image_width; column > 0; column--)` of the RGB case:
`pSource` is an index into the sample row, `pBmpCol` an address. -/
def rgb_columns (row : List Nat) : Nat → Nat → Nat → (Nat → Nat) → (Nat → Nat)
  | 0, _, _, m => m
  | column + 1, pSource, pBmpCol, m =>
    rgb_columns row column (pSource + 3) ((pBmpCol + 4) % 4294967296)
      (store32 m pBmpCol
        (pack_rgb (row.getD pSource 0) (row.getD (pSource + 1) 0) (row.getD (pSource + 2) 0)))

/-- The loop `for (column = cinfo.image_width; column > 0; column--)` of the greyscale case. -/
def gray_columns (row : List Nat) : Nat → Nat → Nat → (Nat → Nat) → (Nat → Nat)
  | 0, _, _, m => m
  | column + 1, pSource, pBmpCol, m =>
    gray_columns row column (pSource + 1) ((pBmpCol + 4) % 4294967296)
      (store32 m pBmpCol
        (pack_rgb (row.getD pSource 0) (row.getD pSource 0) (row.getD pSource 0)))

/-- The loop `while (cinfo.output_scanline < decode_height)` of the libjpeg-turbo case: the
library stores each line at `pBmpRow`. -/
def turbo_loop {π : Type} (lib : LibJpeg π) (decode_height stride : Int) :
    Nat → jpeg_decompress_struct π → Nat → JPEG_request → World →
      Res (jpeg_decompress_struct π)
  | 0, cinfo, _, r, w =>
    if cinfo.output_scanline < toU32 decode_height then .hang r w else .ok cinfo r w
  | fuel + 1, cinfo, pBmpRow, r, w =>
    if cinfo.output_scanline < toU32 decode_height then
      match lib.jpeg_read_scanlines cinfo with
      | .error_exit => .longjmp r (w.log .read_scanlines true)
      | .value (line, cinfo1) =>
        let w1 := w.log .read_scanlines false
        let w2 : World :=
          match line with
          | some bytes => { w1 with mem := write_bytes w1.mem pBmpRow bytes }
          | none => w1
        turbo_loop lib decode_height stride fuel cinfo1 (toU32 (pBmpRow + stride)) r w2
    else .ok cinfo r w

/-- The loop `while (cinfo.output_scanline < decode_height)` of the plain libjpeg case: the
library stores each line into the sample row `scan`, which is then converted. -/
def plain_loop {π : Type} (lib : LibJpeg π) (decode_height stride : Int) :
    Nat → jpeg_decompress_struct π → List Nat → Nat → JPEG_request → World →
      Res (jpeg_decompress_struct π)
  | 0, cinfo, _, _, r, w =>
    if cinfo.output_scanline < toU32 decode_height then .hang r w else .ok cinfo r w
  | fuel + 1, cinfo, scan, pBmpRow, r, w =>
    if cinfo.output_scanline < toU32 decode_height then
      match lib.jpeg_read_scanlines cinfo with
      | .error_exit => .longjmp r (w.log .read_scanlines true)
      | .value (line, cinfo1) =>
        let w1 := w.log .read_scanlines false
        let scan1 := line.getD scan
        let m :=
          if cinfo1.out_color_space = JCS_RGB then
            rgb_columns scan1 cinfo1.image_width 0 pBmpRow w1.mem
          else
            gray_columns scan1 cinfo1.image_width 0 pBmpRow w1.mem
        plain_loop lib decode_height stride fuel cinfo1 scan1 (toU32 (pBmpRow + stride)) r
          { w1 with mem := m }
    else .ok cinfo r w

/-- The two decoding branches of `start_decode` (`if (use_turbo) ... else ...`). The `Bool`
of the result is false when the function bailed out with `JPEG_BAD_PARAM`. -/
def decode_lines {π : Type} (env : Env) (lib : LibJpeg π) (fuel : Nat)
    (cinfo : jpeg_decompress_struct π) (decode_height stride : Int)
    (r : JPEG_request) (w : World) : Res (Bool × jpeg_decompress_struct π) :=
  if env.use_turbo then
    match turbo_loop lib decode_height stride fuel cinfo r.buffer r w with
    | .hang r1 w1 => .hang r1 w1
    | .longjmp r1 w1 => .longjmp r1 w1
    | .ok c r1 w1 => .ok (true, c) r1 w1
  else if JCS_RGB ≠ cinfo.out_color_space ∧ JCS_GRAYSCALE ≠ cinfo.out_color_space then
    match lib.jpeg_destroy_decompress cinfo with
    | .error_exit => .longjmp r (w.log .destroy_decompress true)
    | .value c => .ok (false, c) { r with status := JPEG_BAD_PARAM } (w.log .destroy_decompress false)
  else
    match lib.alloc_sarray cinfo
        ((cinfo.image_width * (toU32 (cinfo.output_components : Int))) % 4294967296) 1 with
    | .error_exit => .longjmp r (w.log .alloc_sarray true)
    | .value (scan, cinfo1) =>
      match plain_loop lib decode_height stride fuel cinfo1 scan r.buffer r
          (w.log .alloc_sarray false) with
      | .hang r1 w1 => .hang r1 w1
      | .longjmp r1 w1 => .longjmp r1 w1
      | .ok c r1 w1 => .ok (true, c) r1 w1

/-- The end of decoding: `jpeg_abort_decompress` or `jpeg_finish_decompress`, then
`jpeg_destroy_decompress`. -/
def finish_lines {π : Type} (lib : LibJpeg π) (cinfo : jpeg_decompress_struct π)
    (r : JPEG_request) (w : World) : Res (jpeg_decompress_struct π) :=
  if cinfo.output_height < cinfo.image_height then
    match lib.jpeg_abort_decompress cinfo with
    | .error_exit => .longjmp r (w.log .abort_decompress true)
    | .value c1 =>
      match lib.jpeg_destroy_decompress c1 with
      | .error_exit => .longjmp r ((w.log .abort_decompress false).log .destroy_decompress true)
      | .value c2 => .ok c2 r ((w.log .abort_decompress false).log .destroy_decompress false)
  else
    match lib.jpeg_finish_decompress cinfo with
    | .error_exit => .longjmp r (w.log .finish_decompress true)
    | .value c1 =>
      match lib.jpeg_destroy_decompress c1 with
      | .error_exit => .longjmp r ((w.log .finish_decompress false).log .destroy_decompress true)
      | .value c2 => .ok c2 r ((w.log .finish_decompress false).log .destroy_decompress false)

/-- The loop `for (y = 0; y < request->v2.crop_height; y++)` that forms the cropped image:
the first argument is the number of iterations left, `buffer` is `request->v2.buffer` (the
full image), `ptr` the current output line. -/
def crop_rows (r : JPEG_request) (image_width : Nat) : Nat → Int → Nat → (Nat → Nat) → (Nat → Nat)
  | 0, _, _, m => m
  | n + 1, y, ptr, m =>
    let img_ptr := toU32 ((r.buffer : Int) + (toU32 ((y + r.crop_y) * image_width * 4) : Int)
      + r.crop_x * 4)
    crop_rows r image_width n (y + 1) ((ptr + r.stride) % 4294967296)
      (memcpy m ptr img_ptr (toU32 (r.crop_width * 4)))

/-- The function `srcmgr_jpeg_memory_src` of srcmgr.c: allocate the source manager, then
point it at the input. -/
def srcmgr_jpeg_memory_src {π : Type} (lib : LibJpeg π) (cinfo : jpeg_decompress_struct π)
    (pJpegDataBuffer jpegDataBufferSize : Nat) : Ret (jpeg_decompress_struct π) :=
  match lib.alloc_small cinfo with
  | .error_exit => .error_exit
  | .value c => .value (lib.set_src c pJpegDataBuffer jpegDataBufferSize)

/-- The first part of the body of `start_decode` after the `setjmp`: from
`jpeg_create_decompress` to `jpeg_start_decompress`. The result is `none` when the function
returned with `JPEG_BAD_DATA`, the decompression object otherwise. -/
def open_image {π : Type} (env : Env) (lib : LibJpeg π)
    (request : JPEG_request) (w : World) : Res (Option (jpeg_decompress_struct π)) :=
  match lib.jpeg_create_decompress with
  | .error_exit => .longjmp request (w.log .create_decompress true)
  | .value cinfo0 =>
    let w0 := w.log .create_decompress false
    match srcmgr_jpeg_memory_src lib cinfo0 request.image request.size with
    | .error_exit => .longjmp request (w0.log .alloc_small true)
    | .value cinfo2 =>
      let w1 := w0.log .alloc_small false
      match lib.jpeg_read_header cinfo2 with
      | .error_exit => .longjmp request (w1.log .read_header true)
      | .value (rc, cinfo3) =>
        let w2 := w1.log .read_header false
        if rc ≠ JPEG_HEADER_OK then
          match lib.jpeg_destroy_decompress cinfo3 with
          | .error_exit => .longjmp request (w2.log .destroy_decompress true)
          | .value _ =>
            .ok none { request with status := JPEG_BAD_DATA } (w2.log .destroy_decompress false)
        else
          let cinfo4 :=
            if env.use_turbo then { cinfo3 with out_color_space := JCS_EXT_BGRX } else cinfo3
          match lib.jpeg_start_decompress cinfo4 with
          | .error_exit => .longjmp request (w2.log .start_decompress true)
          | .value (started, cinfo5) =>
            let w3 := w2.log .start_decompress false
            if !started then
              match lib.jpeg_destroy_decompress cinfo5 with
              | .error_exit => .longjmp request (w3.log .destroy_decompress true)
              | .value _ =>
                .ok none { request with status := JPEG_BAD_DATA }
                  (w3.log .destroy_decompress false)
            else .ok (some cinfo5) request w3

/-- The test `debug_cropping && (crop_x > 0 || crop_y > 0 || crop_width != cinfo.image_width)`
of `start_decode`. -/
def cropping (env : Env) (request : JPEG_request) (image_width : Nat) : Bool :=
  env.debug_cropping &&
    (decide (request.crop_x > 0) || decide (request.crop_y > 0) ||
      decide (toU32 request.crop_width ≠ image_width))

/-- The address of the block `start_decode` allocates for the whole image when cropping. -/
def waste_of {π : Type} (env : Env) (cinfo : jpeg_decompress_struct π) : Nat :=
  env.malloc ((cinfo.image_width * cinfo.image_height * 4) % 4294967296)

/-- The second part of the body of `start_decode`: from the cropping test to the end, for
the decompression object `cinfo` left by `jpeg_start_decompress`. -/
def decode_image {π : Type} (env : Env) (lib : LibJpeg π) (fuel : Nat)
    (cinfo : jpeg_decompress_struct π) (request : JPEG_request) (w : World) : Res Unit :=
  let cropped : Bool := cropping env request cinfo.image_width
  let old_buf := request.buffer
  let request1 : JPEG_request :=
    if cropped then { request with buffer := waste_of env cinfo } else request
  let decode_height : Int :=
    if cropped then toI32 cinfo.image_height else request.crop_height
  let stride : Int :=
    if cropped then toI32 ((cinfo.image_width * 4) % 4294967296) else toI32 request.stride
  match decode_lines env lib fuel cinfo decode_height stride request1 w with
  | .hang r1 w4 => .hang r1 w4
  | .longjmp r1 w4 => .longjmp r1 w4
  | .ok (false, _) r1 w4 => .ok () r1 w4
  | .ok (true, cinfo6) r1 w4 =>
    match finish_lines lib cinfo6 r1 w4 with
    | .hang r2 w5 => .hang r2 w5
    | .longjmp r2 w5 => .longjmp r2 w5
    | .ok cinfo7 r2 w5 =>
      if cropped then
        .ok () { r2 with buffer := old_buf, status := JPEG_SUCCESS }
          { w5 with
            mem := crop_rows r2 cinfo7.image_width r2.crop_height.toNat 0 old_buf w5.mem }
      else
        .ok () { r2 with status := JPEG_SUCCESS } w5

/-- The body of `start_decode` after the `setjmp`, for a request that passed the argument
check. -/
def start_decode_body {π : Type} (env : Env) (lib : LibJpeg π) (fuel : Nat)
    (request : JPEG_request) (w : World) : Res Unit :=
  match open_image env lib request w with
  | .hang r1 w1 => .hang r1 w1
  | .longjmp r1 w1 => .longjmp r1 w1
  | .ok none r1 w1 => .ok () r1 w1
  | .ok (some cinfo) r1 w1 => decode_image env lib fuel cinfo r1 w1

/-- The function `start_decode(struct JPEG_request *request)`. -/
def start_decode {π : Type} (env : Env) (lib : LibJpeg π) (fuel : Nat)
    (request : Option JPEG_request) (w : World) : Outcome :=
  match request with
  | none => .returned none w
  | some r =>
    if r.image = 0 ∨ r.buffer = 0 then
      .returned (some { r with status := JPEG_BAD_PARAM }) w
    else
      match start_decode_body env lib fuel r w with
      | .hang r1 w1 => .hang (some r1) w1
      | .longjmp r1 w1 => .returned (some { r1 with status := JPEG_INTERNAL }) w1
      | .ok _ r1 w1 => .returned (some r1) w1

/-- The function `batch_decode`: the loop `for (i = 0; i < num_requests; i++)`, with the
number of iterations left as first argument. The array is given by its elements. -/
def batch_loop {π : Type} (env : Env) (lib : LibJpeg π) (fuel : Nat) :
    Nat → Nat → (Nat → JPEG_request) → World → Option ((Nat → JPEG_request) × World)
  | 0, _, request, w => some (request, w)
  | n + 1, i, request, w =>
    match start_decode env lib fuel (some (request i)) w with
    | .hang _ _ => none
    | .returned r1 w1 =>
      batch_loop env lib fuel n (i + 1) (Function.update request i (r1.getD (request i))) w1

/-- The function `batch_decode(struct JPEG_request request[], int num_requests)`; `none`
when one of the calls of `start_decode` runs out of fuel. -/
def batch_decode {π : Type} (env : Env) (lib : LibJpeg π) (fuel : Nat)
    (request : Nat → JPEG_request) (num_requests : Int) (w : World) :
    Option ((Nat → JPEG_request) × World) :=
  batch_loop env lib fuel num_requests.toNat 0 request w

/-! ## Reference implementation of the library

The behaviour of libjpeg that `start_decode` relies on, after the library documentation
(libjpeg.txt) and `jdapimin.c`, `jdapistd.c`:

* `jpeg_read_header` (with `require_image`) returns `JPEG_HEADER_OK` or calls `error_exit`;
  the source manager of srcmgr.c never suspends;
* `jpeg_start_decompress` computes the output dimensions; no scaling is requested, so
  `output_height = image_height`;
* `jpeg_read_scanlines` returns one line and advances `output_scanline`; called with
  `output_scanline >= output_height` it only warns and returns no line;
* `jpeg_finish_decompress` called before all lines were read is an error
  (`JERR_TOO_LITTLE_DATA`); `jpeg_abort_decompress` is the call for that case;
* a call in the wrong state is an error (`JERR_BAD_STATE`).
-/

/-- What the bytes handed to the decoder hold: whether they are a JPEG image, its size, the
output colour space `jpeg_read_header` selects for it, and the samples of each line in a
given output colour space. -/
structure JpegFile where
  is_jpeg : Bool
  image_width : Nat
  image_height : Nat
  color_space : Nat
  samples : Nat → Nat → List Nat

/-- The private part of the decompression object: `global_state` and the source. -/
structure JState where
  global_state : Nat
  next_input_byte : Nat
  bytes_in_buffer : Nat

def DSTATE_START : Nat := 200
def DSTATE_READY : Nat := 202
def DSTATE_SCANNING : Nat := 205

/-- Number of components per pixel of an output colour space, when the library can produce
it: greyscale, RGB, YCbCr, CMYK, YCCK, and with libjpeg-turbo `JCS_EXT_BGRX`. -/
def components_of (turbo : Bool) (cs : Nat) : Option Nat :=
  if cs = 1 then some 1
  else if cs = 2 ∨ cs = 3 then some 3
  else if cs = 4 ∨ cs = 5 then some 4
  else if turbo ∧ cs = 9 then some 4
  else none

/-- The reference library: `turbo` tells whether it is libjpeg-turbo, `input p n` what the
`n` bytes at address `p` hold. -/
def libjpeg (turbo : Bool) (input : Nat → Nat → JpegFile) : LibJpeg JState where
  jpeg_create_decompress :=
    .value
      { image_width := 0, image_height := 0, out_color_space := 0, output_components := 0
        output_height := 0, output_scanline := 0
        internal := { global_state := DSTATE_START, next_input_byte := 0, bytes_in_buffer := 0 } }
  alloc_small := fun c => .value c
  set_src := fun c p n =>
    { c with internal := { c.internal with next_input_byte := p, bytes_in_buffer := n } }
  jpeg_read_header := fun c =>
    let f := input c.internal.next_input_byte c.internal.bytes_in_buffer
    if c.internal.global_state = DSTATE_START ∧ f.is_jpeg then
      .value (JPEG_HEADER_OK,
        { c with
          image_width := f.image_width, image_height := f.image_height
          out_color_space := f.color_space
          internal := { c.internal with global_state := DSTATE_READY } })
    else .error_exit
  jpeg_start_decompress := fun c =>
    if c.internal.global_state = DSTATE_READY then
      match components_of turbo c.out_color_space with
      | some n =>
        .value (true,
          { c with
            output_components := n, output_height := c.image_height, output_scanline := 0
            internal := { c.internal with global_state := DSTATE_SCANNING } })
      | none => .error_exit
    else .error_exit
  alloc_sarray := fun c samplesperrow _ => .value (List.replicate samplesperrow 0, c)
  jpeg_read_scanlines := fun c =>
    if c.internal.global_state = DSTATE_SCANNING then
      if c.output_scanline < c.output_height then
        .value
          (some ((input c.internal.next_input_byte c.internal.bytes_in_buffer).samples
                  c.out_color_space c.output_scanline),
            { c with output_scanline := c.output_scanline + 1 })
      else .value (none, c)
    else .error_exit
  jpeg_abort_decompress := fun c =>
    .value { c with internal := { c.internal with global_state := DSTATE_START } }
  jpeg_finish_decompress := fun c =>
    if c.internal.global_state = DSTATE_SCANNING then
      if c.output_scanline < c.output_height then .error_exit
      else .value { c with internal := { c.internal with global_state := DSTATE_START } }
    else .error_exit
  jpeg_destroy_decompress := fun c =>
    .value { c with internal := { c.internal with global_state := 0 } }

/-! ## Observing a run -/

/-- The request structure at the end of a piece of `start_decode`. -/
def Res.req {α : Type} : Res α → JPEG_request
  | .hang r _ => r
  | .longjmp r _ => r
  | .ok _ r _ => r

/-- The world at the end of a piece of `start_decode`. -/
def Res.world {α : Type} : Res α → World
  | .hang _ w => w
  | .longjmp _ w => w
  | .ok _ _ w => w

/-- The record `w1` continues `w` with library calls that all returned. -/
def quiet (w w1 : World) : Prop :=
  ∃ evs : List Event, w1.calls = w.calls ++ evs ∧ ∀ e ∈ evs, e.raised = false

/-- The record `w1` continues `w` with library calls of which one called `error_exit`. -/
def raisedIn (w w1 : World) : Prop :=
  ∃ evs : List Event, w1.calls = w.calls ++ evs ∧ ∃ e ∈ evs, e.raised = true

/-- A piece of `start_decode` started in `w` ends in `longjmp` exactly when one of the
library calls it recorded called `error_exit`. -/
def Res.traced {α : Type} (w : World) : Res α → Prop
  | .hang _ w1 => quiet w w1
  | .longjmp _ w1 => raisedIn w w1
  | .ok _ _ w1 => quiet w w1

/-- The library calls recorded by a call of `start_decode` started in `w`. -/
def Outcome.new_calls (o : Outcome) (w : World) : List Event :=
  o.world.calls.drop w.calls.length

/-- A property of the request structure at the end of a piece of `start_decode`: `P` when it
ends normally, `Q` when it ends in `longjmp` or out of fuel. -/
def Res.holds {α : Type} (P : α → JPEG_request → Prop) (Q : JPEG_request → Prop) :
    Res α → Prop
  | .hang r _ => Q r
  | .longjmp r _ => Q r
  | .ok a r _ => P a r

/-- A library whose `jpeg_read_header` returns `rc` and whose `jpeg_start_decompress` returns
`started`, for an image of no line; every other call returns at once. -/
def stub_lib (rc : Int) (started : Bool) : LibJpeg Unit where
  jpeg_create_decompress :=
    .value
      { image_width := 0, image_height := 0, out_color_space := 0, output_components := 0
        output_height := 0, output_scanline := 0, internal := () }
  alloc_small := fun c => .value c
  set_src := fun c _ _ => c
  jpeg_read_header := fun c => .value (rc, c)
  jpeg_start_decompress := fun c => .value (started, c)
  alloc_sarray := fun c _ _ => .value ([], c)
  jpeg_read_scanlines := fun c => .value (none, c)
  jpeg_abort_decompress := fun c => .value c
  jpeg_finish_decompress := fun c => .value c
  jpeg_destroy_decompress := fun c => .value c

/-- A 2 x 2 colour image: samples of line `y` as BGRX (libjpeg-turbo) and as RGB. -/
def sample_file : JpegFile :=
  { is_jpeg := true
    image_width := 2
    image_height := 2
    color_space := JCS_RGB
    samples := fun cs y =>
      if cs = JCS_EXT_BGRX then
        [16 * y + 1, 16 * y + 2, 16 * y + 3, 255, 16 * y + 5, 16 * y + 6, 16 * y + 7, 255]
      else [16 * y + 3, 16 * y + 2, 16 * y + 1, 16 * y + 7, 16 * y + 6, 16 * y + 5] }

/-- Input bytes that are not a JPEG image. -/
def sample_garbage : JpegFile :=
  { is_jpeg := false, image_width := 0, image_height := 0, color_space := 0
    samples := fun _ _ => [] }

/-- The input of the samples: a JPEG image at address 4096, no image elsewhere. -/
def sample_input (p _n : Nat) : JpegFile := if p = 4096 then sample_file else sample_garbage

/-- File-scope state with libjpeg-turbo found and cropping off (the default). -/
def sample_env : Env :=
  { use_turbo := true, debug_cropping := false, batchDebugging := false
    malloc := fun _ => 65536 }

/-- File-scope state without libjpeg-turbo, cropping off. -/
def sample_env_plain : Env :=
  { use_turbo := false, debug_cropping := false, batchDebugging := false
    malloc := fun _ => 65536 }

/-- A request for the whole sample image, into a buffer at address 8192 with 8-byte rows. -/
def sample_request : JPEG_request :=
  { image := 4096, size := 700, buffer := 8192, width := 2, height := 2, stride := 8
    format := 0, priv := 0, status := JPEG_BUSY, callback := 0
    completion_sig := -1, completion_fd := -1
    crop_x := 0, crop_y := 0, crop_width := 2, crop_height := 2, output_size := 16 }

/-- Zeroed memory, no library call made yet. -/
def sample_world : World := { mem := fun _ => 0, calls := [] }

/-- A 2 x 2 CMYK image: `jpeg_read_header` selects the output colour space `JCS_CMYK` (4). -/
def sample_cmyk : JpegFile :=
  { is_jpeg := true, image_width := 2, image_height := 2, color_space := 4
    samples := fun _ y => [y, y, y, y, y, y, y, y] }

/-- The input of the CMYK sample: the image is at every address. -/
def sample_input_cmyk (_p _n : Nat) : JpegFile := sample_cmyk

/-- File-scope state without libjpeg-turbo and with `CTXJPEG_FB_SW_DEBUG_CROPPING` set. -/
def sample_env_plain_crop : Env :=
  { use_turbo := false, debug_cropping := true, batchDebugging := false
    malloc := fun _ => 65536 }

/-- The reference library when no memory is left for the sample row: `alloc_sarray` calls
`error_exit` (`JERR_OUT_OF_MEMORY`). -/
def libjpeg_no_memory (input : Nat → Nat → JpegFile) : LibJpeg JState :=
  { libjpeg false input with alloc_sarray := fun _ _ _ => .error_exit }

/-- The functions of libjpeg.c that the entry points of `JPEG_decoder` can hold. -/
inductive EntryPoint where
  | start_decode
  | finish_decode
  | complete_request
  | batch_decode
  deriving DecidableEq, Repr

/-- The entry points of `struct JPEG_decoder`; `none` is the null pointer. -/
structure JPEG_decoder_entries where
  start_decode : Option EntryPoint
  finish_decode : Option EntryPoint
  complete_request : Option EntryPoint
  batch_decode : Option EntryPoint
  deriving DecidableEq, Repr

/-- The file-scope state of libjpeg.c: `JPEG_decoder` (capabilities and entry points),
`use_turbo`, `batchDebugging`, `debug_cropping`. -/
structure Globals where
  decoder : JPEG_decoder_caps
  entries : JPEG_decoder_entries
  use_turbo : Bool
  batchDebugging : Bool
  debug_cropping : Bool

/-- The static initialisers of libjpeg.c. -/
def static_globals : Globals :=
  { decoder := JPEG_decoder
    entries :=
      { start_decode := some .start_decode, finish_decode := some .finish_decode
        complete_request := some .complete_request, batch_decode := some .batch_decode }
    use_turbo := true
    batchDebugging := false
    debug_cropping := false }

/-- The compression entry points of the library called by `init_decoder`, each returning or
calling `error_exit`: `jpeg_create_compress`, and `jpeg_set_defaults` for the input colour
space `JCS_EXT_RGB`. -/
structure LibJpegCompress where
  jpeg_create_compress : Ret Unit
  jpeg_set_defaults : Ret Unit

/-- The function `init_decoder`, run once when the library is loaded. `getenv` and `atoi`
are those of the C library: `getenv name` is `none` for an unset variable. -/
def init_decoder (lib : LibJpegCompress) (getenv : String → Option String)
    (atoi : String → Int) (g : Globals) : Globals :=
  let use_turbo : Bool :=
    match lib.jpeg_create_compress with
    | .error_exit => false
    | .value _ =>
      match lib.jpeg_set_defaults with
      | .error_exit => false
      | .value _ => true
  let g1 : Globals := { g with use_turbo := use_turbo }
  let g2 : Globals :=
    match getenv "CTXJPEG_FB_SW_BATCH_SIZE" with
    | some softwareBatchSize =>
      let temp := atoi softwareBatchSize
      if temp > 1 then
        { g1 with
          decoder :=
            { g1.decoder with
              concurrency := toU32 temp
              completion_handling := g1.decoder.completion_handling ||| BATCH_DECODING }
          batchDebugging := true }
      else g1
    | none => g1
  let debug_cropping : Bool := (getenv "CTXJPEG_FB_SW_DEBUG_CROPPING").isSome
  if debug_cropping then
    { g2 with
      debug_cropping := true
      decoder :=
        { g2.decoder with
          output_formats := g2.decoder.output_formats ||| (CROP_OUTPUT_X_OFFSET ||| CROP_OUTPUT_Y_OFFSET) } }
  else { g2 with debug_cropping := false }

/-- The digits of `atoi`: the value of the longest run of decimal digits at the start. -/
def atoi_digits : List Char → Int → Int
  | [], acc => acc
  | c :: cs, acc => if c.isDigit then atoi_digits cs (acc * 10 + ((c.toNat : Int) - 48)) else acc

/-- The function `isspace` of the C library in the "C" locale: space, and the characters
9 to 13 (horizontal tab, line feed, vertical tab, form feed, carriage return). -/
def isspace (c : Char) : Bool := c.toNat = 32 || (9 ≤ c.toNat && c.toNat ≤ 13)

/-- The function `atoi` of the C library, as glibc computes it on a 32-bit target: white
space (`isspace`) is skipped, an optional sign is read, then decimal digits; a value out of
the range of `int` is clamped to it. A string with no digits gives 0. -/
def atoi (s : String) : Int :=
  let v : Int :=
    match s.data.dropWhile isspace with
    | '-' :: r => - atoi_digits r 0
    | '+' :: r => atoi_digits r 0
    | r => atoi_digits r 0
  max (-2147483648) (min v 2147483647)

/-- An environment in which only `CTXJPEG_FB_SW_BATCH_SIZE` is set, to `value`. -/
def sample_getenv (value : String) (name : String) : Option String :=
  if name = "CTXJPEG_FB_SW_BATCH_SIZE" then some value else none

/-- A library with libjpeg-turbo's colour spaces: both compression calls return. -/
def sample_compress : LibJpegCompress :=
  { jpeg_create_compress := .value (), jpeg_set_defaults := .value () }

end CtxJpeg

/-!
# H264_decode.h: the interface to H.264 decoders

The header `src/H264_Pi_sample/H264_decode.h` declares constants, structures and a table of
entry points; the repository holds no implementation of the entry points. The constants and
structures below are those of the header. The engine behind the entry points (contexts,
canvasses, overlay store, compositor, push) is modelled from the specification; each such
definition says so.
-/

namespace H264

/-! ## The header -/

def VERSION_MAJOR : Nat := 2
def VERSION_MINOR : Nat := 1

/-- The enumeration `LLPixelFormat`. -/
inductive LLPixelFormat where
  | PIXEL_FORMAT_ARGB
  | PIXEL_FORMAT_BGRA
  deriving DecidableEq, Repr

def LLPixelFormat.val : LLPixelFormat → Nat
  | .PIXEL_FORMAT_ARGB => 0x00
  | .PIXEL_FORMAT_BGRA => 0x01

/-- The enumeration `ImageOp`. -/
inductive ImageOp where
  | IMAGE_OP_DRAW_LOSSLESS
  | IMAGE_OP_DELETE_LOSSLESS
  | IMAGE_OP_SMALL_FRAME_BITMAP
  | IMAGE_OP_SMALL_FRAME_SOLID_FILL
  deriving DecidableEq, Repr

def ImageOp.val : ImageOp → Nat
  | .IMAGE_OP_DRAW_LOSSLESS => 0
  | .IMAGE_OP_DELETE_LOSSLESS => 1
  | .IMAGE_OP_SMALL_FRAME_BITMAP => 2
  | .IMAGE_OP_SMALL_FRAME_SOLID_FILL => 3

def WINDOW_INFO_FLAG_SEAMLESS : Nat := 0x00000001
def WINDOW_INFO_FLAG_REPAINT : Nat := 0x00000002

/-- The type `H264_context`: an `unsigned int`. -/
abbrev H264_context := Nat

def H264_INVALID_CONTEXT : H264_context := 0

/-- The type `CANV_context`: an `unsigned int`. -/
abbrev CANV_context := Nat

def CANV_INVALID_CONTEXT : CANV_context := 0

/-- The enumeration `H264Option`. -/
inductive H264Option where
  | H264_OPTION_LOSSLESS
  | H264_OPTION_WINDOW_SUPPORT
  | H264_OPTION_PREFER_TEXT_RECTS
  | H264_OPTION_SMALL_FRAME_SUPPORT
  | H264_OPTION_FORCE_FULL_RENEG
  deriving DecidableEq, Repr

def H264Option.val : H264Option → Nat
  | .H264_OPTION_LOSSLESS => 0x00000001
  | .H264_OPTION_WINDOW_SUPPORT => 0x00000002
  | .H264_OPTION_PREFER_TEXT_RECTS => 0x00000004
  | .H264_OPTION_SMALL_FRAME_SUPPORT => 0x00000008
  | .H264_OPTION_FORCE_FULL_RENEG => 0x00000010

/-- The enumeration `ChromaFormat`. -/
inductive ChromaFormat where
  | H264_CHROMA_FORMAT_400
  | H264_CHROMA_FORMAT_420
  | H264_CHROMA_FORMAT_422
  | H264_CHROMA_FORMAT_444
  deriving DecidableEq, Repr

def ChromaFormat.val : ChromaFormat → Nat
  | .H264_CHROMA_FORMAT_400 => 0x00000001
  | .H264_CHROMA_FORMAT_420 => 0x00000002
  | .H264_CHROMA_FORMAT_422 => 0x00000004
  | .H264_CHROMA_FORMAT_444 => 0x00000008

/-- The bitwise OR of the values of the members of a set, given as a list: how the fields
`options` and `chroma_formats` of `struct H264_decoder` are formed. -/
def mask_of {α : Type} (val : α → Nat) : List α → Nat
  | [] => 0
  | a :: l => val a ||| mask_of val l

/-- The mask of a set of options. -/
def option_mask (l : List H264Option) : Nat := mask_of H264Option.val l

/-- The mask of a set of chroma formats. -/
def chroma_mask (l : List ChromaFormat) : Nat := mask_of ChromaFormat.val l

/-- Conversion of an `int` to a handle (`unsigned int`). -/
def to_handle (i : Int) : Nat := (i % 4294967296).toNat

/-! ## The engine, modelled from the specification -/

/-- Modelled from the spec: the rectangle type `SIGNED_RECT`, which the header uses and does
not declare. Data model, "Rectangle": signed `(x0, y0, x1, y1)`, covering the pixels with
`x0 <= x < x1` and `y0 <= y < y1` (the header's example `{200,200,600,400}` is a region at
(200, 200) of width 400 and height 200). -/
structure SIGNED_RECT where
  x0 : Int
  y0 : Int
  x1 : Int
  y1 : Int
  deriving DecidableEq, Repr

/-- Modelled from the spec: whether a rectangle covers the pixel `(x, y)`; an empty
rectangle carries no area. -/
def SIGNED_RECT.covers (r : SIGNED_RECT) (x y : Int) : Bool :=
  decide (r.x0 ≤ x) && decide (x < r.x1) && decide (r.y0 ≤ y) && decide (y < r.y1)

/-- Modelled from the spec: a destination rectangle exceeds the bounds of a surface of the
given width and height when it does not lie fully within `[0,width) x [0,height)`. -/
def SIGNED_RECT.exceeds (r : SIGNED_RECT) (width height : Int) : Bool :=
  decide (r.x0 < 0) || decide (r.y0 < 0) || decide (width < r.x1) || decide (height < r.y1)

/-- Pixel content: the pixel value at each `(x, y)`. -/
abbrev Pixels := Int → Int → Nat

/-- The structure `struct image_buf` of the header. The memory behind `bits` is given by its
content: `bits x y` is the pixel at column `x`, row `y` of the image. -/
structure image_buf where
  cb_size : Nat
  bits : Pixels
  pixel_format : LLPixelFormat
  lossless_op : ImageOp
  stride : Int
  width : Nat
  height : Nat
  dst_x : Int
  dst_y : Int
  src_x : Int
  src_y : Int
  col : Nat

/-- The structure `struct window_info` of the header. -/
structure window_info where
  cb_size : Nat
  id : Nat
  rect : SIGNED_RECT
  target_x : Int
  target_y : Int
  flags : Nat

/-- Modelled from the spec: the error taxonomy of the protocol ("Error handling design"). -/
inductive EngineError where
  | InvalidHandle
  | OutOfBounds
  | CapacityExceeded
  | CodecFailure
  | InvalidState
  | PresentationFailure
  deriving DecidableEq, Repr

/-- Modelled from the spec: the external collaborators and the configuration of the engine
("External interfaces", "Design notes"): the bitstream codec `decode(accumulated_bytes)`,
the colour kernel that blends a partly transparent pixel over another, the presentation
backend, the decoder's limits (0 for no limit on contexts and canvasses) and whether
small-frame objects are retained ("prefer rects" mode). -/
structure Collaborators where
  decode : List Nat → Option Pixels
  blend : Nat → Nat → Nat
  present : Pixels → List window_info → Bool
  max_contexts : Nat
  max_canvasses : Nat
  max_width : Int
  max_height : Int
  retain_small_frames : Bool

/-- Modelled from the spec: the kinds of overlay object (data model, "Overlay Object"). -/
inductive OverlayKind where
  | lossless
  | small_frame_bitmap
  | small_frame_fill
  deriving DecidableEq, Repr

/-- Modelled from the spec: an overlay object: kind, destination rectangle (its key), pixel
data copied in (relative to the rectangle's corner) or fill colour, pixel format. -/
structure OverlayObject where
  kind : OverlayKind
  rect : SIGNED_RECT
  pixels : Pixels
  col : Nat
  pixel_format : LLPixelFormat

/-- Modelled from the spec: the alpha value of a pixel: the top byte for ARGB, the low byte
for BGRA (header, `pref_lossless_alpha_val`). -/
def alpha_of (fmt : LLPixelFormat) (p : Nat) : Nat :=
  match fmt with
  | .PIXEL_FORMAT_ARGB => p / 16777216 % 256
  | .PIXEL_FORMAT_BGRA => p % 256

/-- Modelled from the spec: the pixel an overlay object shows at canvas position `(x, y)`
and its alpha value; a solid fill is opaque. -/
def OverlayObject.pixel_at (o : OverlayObject) (x y : Int) : Nat × Nat :=
  match o.kind with
  | .small_frame_fill => (o.col, 255)
  | _ => (o.pixels (x - o.rect.x0) (y - o.rect.y0),
          alpha_of o.pixel_format (o.pixels (x - o.rect.x0) (y - o.rect.y0)))

/-- Modelled from the spec: alpha blending of an overlay pixel over what is below it:
"transparent pixels (alpha 0) in the overlay leave the decoded picture untouched; opaque
pixels replace it". -/
def over (c : Collaborators) (top : Nat × Nat) (below : Nat) : Nat :=
  if top.2 = 0 then below else if top.2 = 255 then top.1 else c.blend top.1 below

/-- Modelled from the spec: the overlay store operation `upsert(rect, object)`: "replaces
any existing object at that exact destination rectangle, else inserts". -/
def upsert (o : OverlayObject) : List OverlayObject → List OverlayObject
  | [] => [o]
  | p :: s => if p.rect = o.rect then o :: s else p :: upsert o s

/-- Modelled from the spec: the overlay store operation `remove(rect)`: "deletes the object
at that rectangle if present (no-op otherwise)". -/
def remove (rect : SIGNED_RECT) (s : List OverlayObject) : List OverlayObject :=
  s.filter (fun p => decide (p.rect ≠ rect))

/-- Modelled from the spec: the overlay store operation `purge_transient()`: "removes all
small-frame objects unless retention mode is enabled". -/
def purge_transient (retain : Bool) (s : List OverlayObject) : List OverlayObject :=
  if retain then s else s.filter (fun p => decide (p.kind = .lossless))

/-- Modelled from the spec: the overlay store operation `purge_all()`. -/
def purge_all (_s : List OverlayObject) : List OverlayObject := []

/-- Modelled from the spec: the overlay object described by an `image_buf`: its destination
rectangle is at `(dst_x, dst_y)` with the image's width and height. -/
def object_of (kind : OverlayKind) (b : image_buf) : OverlayObject :=
  { kind := kind
    rect := { x0 := b.dst_x, y0 := b.dst_y, x1 := b.dst_x + b.width, y1 := b.dst_y + b.height }
    pixels := b.bits
    col := b.col
    pixel_format := b.pixel_format }

/-- Modelled from the spec: the effect on the overlay store of one object passed to
`compose_with_rects`, by its `lossless_op`: draw operations upsert, the delete operation
removes by destination rectangle. -/
def apply_op (s : List OverlayObject) (b : image_buf) : List OverlayObject :=
  match b.lossless_op with
  | .IMAGE_OP_DRAW_LOSSLESS => upsert (object_of .lossless b) s
  | .IMAGE_OP_DELETE_LOSSLESS => remove (object_of .lossless b).rect s
  | .IMAGE_OP_SMALL_FRAME_BITMAP => upsert (object_of .small_frame_bitmap b) s
  | .IMAGE_OP_SMALL_FRAME_SOLID_FILL => upsert (object_of .small_frame_fill b) s

/-- Modelled from the spec: steps 2 and 3 of the merge algorithm at one pixel: the overlay
objects that cover the pixel are composited over `below` in store order; small-frame
objects are drawn only in retention mode. -/
def draw_objects (c : Collaborators) (s : List OverlayObject) (x y : Int) (below : Nat) : Nat :=
  s.foldl
    (fun acc o =>
      if o.rect.covers x y && (decide (o.kind = .lossless) || c.retain_small_frames) then
        over c (o.pixel_at x y) acc
      else acc)
    below

/-- Modelled from the spec: a canvas (data model, "Canvas"): size, pixel format, offset in
the virtual display, the pixel buffer it owns, its overlay store and its "dirty since last
push" flag; `shown` is the pixel content last made visible by a push. -/
structure Canvas where
  width : Int
  height : Int
  pix_format : LLPixelFormat
  x_off : Int
  y_off : Int
  buffer : Pixels
  overlays : List OverlayObject
  dirty : Bool
  shown : Pixels

/-- Modelled from the spec: the states of a live decode context ("Decode Context State
Machine"); a context that is `IDLE` or `CLOSED` has no entry in the engine. -/
inductive ContextState where
  | OPEN
  | ACCUMULATING
  | DECODED
  | COMPOSED
  deriving DecidableEq, Repr

/-- Modelled from the spec: a decode context (data model, "Decode Context"): owning canvas,
destination rectangle relative to the canvas origin, chroma format, accumulation buffer of
the frame in flight, last decoded picture (relative to the rectangle's corner), dirty
rectangles of the current frame (relative to the rectangle's corner), state. -/
structure DecodeContext where
  canvas : CANV_context
  dest : SIGNED_RECT
  fmt : ChromaFormat
  accumulated : List Nat
  picture : Option Pixels
  dirty_rects : List SIGNED_RECT
  state : ContextState

/-- Modelled from the spec: the engine: its canvasses and decode contexts by handle, the
next handle of each kind (handles start at 1, 0 being the invalid handle), and the number
of live canvasses and contexts. -/
structure Engine where
  canvases : CANV_context → Option Canvas
  contexts : H264_context → Option DecodeContext
  next_canvas : Nat
  next_context : Nat
  num_canvases : Nat
  num_contexts : Nat

/-- Modelled from the spec: the engine after `init`: nothing created yet. -/
def Engine.initial : Engine :=
  { canvases := fun _ => none, contexts := fun _ => none
    next_canvas := 1, next_context := 1, num_canvases := 0, num_contexts := 0 }

/-- The return value of an entry point that returns a handle: the invalid handle on error. -/
def handle_of (r : Except EngineError Nat) : Nat :=
  match r with
  | .ok h => h
  | .error _ => 0

/-- The return value of an entry point that returns `bool`: false on error. -/
def bool_of (r : Except EngineError Unit) : Bool :=
  match r with
  | .ok _ => true
  | .error _ => false

/-- Modelled from the spec: `create_canvas`: a new canvas with a blank buffer and an empty
overlay store; `CapacityExceeded` when the count would exceed the configured maximum. -/
def create_canvas (c : Collaborators) (width height : Int) (pix_format : LLPixelFormat)
    (x_off y_off : Int) (s : Engine) : Except EngineError Nat × Engine :=
  if c.max_canvasses ≠ 0 ∧ c.max_canvasses ≤ s.num_canvases then (.error .CapacityExceeded, s)
  else
    (.ok s.next_canvas,
      { s with
        canvases := Function.update s.canvases s.next_canvas
          (some { width := width, height := height, pix_format := pix_format
                  x_off := x_off, y_off := y_off
                  buffer := fun _ _ => 0, overlays := [], dirty := false
                  shown := fun _ _ => 0 })
        next_canvas := s.next_canvas + 1
        num_canvases := s.num_canvases + 1 })

/-- Modelled from the spec: `create_h264_context`: `IDLE -> OPEN`; "rejects if the
requested dimensions exceed the decoder's maximum or the destination rectangle exceeds
canvas bounds"; an unknown canvas is `InvalidHandle`. -/
def create_h264_context (c : Collaborators) (cxt : CANV_context) (dest : SIGNED_RECT)
    (fmt : ChromaFormat) (s : Engine) : Except EngineError Nat × Engine :=
  match s.canvases cxt with
  | none => (.error .InvalidHandle, s)
  | some canvas =>
    if dest.exceeds canvas.width canvas.height then (.error .OutOfBounds, s)
    else if c.max_width < dest.x1 - dest.x0 ∨ c.max_height < dest.y1 - dest.y0 then
      (.error .CapacityExceeded, s)
    else if c.max_contexts ≠ 0 ∧ c.max_contexts ≤ s.num_contexts then
      (.error .CapacityExceeded, s)
    else
      (.ok s.next_context,
        { s with
          contexts := Function.update s.contexts s.next_context
            (some { canvas := cxt, dest := dest, fmt := fmt, accumulated := []
                    picture := none, dirty_rects := [], state := .OPEN })
          next_context := s.next_context + 1
          num_contexts := s.num_contexts + 1 })

/-- Replace the canvas at a handle. -/
def Engine.set_canvas (s : Engine) (h : CANV_context) (k : Canvas) : Engine :=
  { s with canvases := Function.update s.canvases h (some k) }

/-- Replace the decode context at a handle. -/
def Engine.set_context (s : Engine) (h : H264_context) (x : DecodeContext) : Engine :=
  { s with contexts := Function.update s.contexts h (some x) }

/-- Modelled from the spec: `start_frame(encoded_size, dirty_rects)`. With
`encoded_size == 0` "no new bitstream is expected; the context immediately transitions to
`DECODED` using the last composed picture unchanged". Otherwise the context goes to
`ACCUMULATING` with an empty accumulation buffer, and a real video frame purges the
transient objects of the canvas's overlay store. A failed frame is restarted by a fresh
`start_frame`, so the call is accepted in every state of a live context. -/
def start_frame (c : Collaborators) (cxt : H264_context) (encoded_size : Nat)
    (dirty_rects : List SIGNED_RECT) (s : Engine) : Except EngineError Unit × Engine :=
  match s.contexts cxt with
  | none => (.error .InvalidHandle, s)
  | some x =>
    if encoded_size = 0 then
      (.ok (), s.set_context cxt
        { x with accumulated := [], dirty_rects := dirty_rects, state := .DECODED })
    else
      match s.canvases x.canvas with
      | none => (.error .InvalidHandle, s)
      | some k =>
        (.ok (),
          (s.set_canvas x.canvas
              { k with overlays := purge_transient c.retain_small_frames k.overlays }).set_context
            cxt { x with accumulated := [], dirty_rects := dirty_rects, state := .ACCUMULATING })

/-- Modelled from the spec: `decode_frame(bytes, last)`: "appends bytes to the accumulation
buffer; while `last == false` the context stays in `ACCUMULATING`; when `last == true`,
invokes the external codec on the full accumulated buffer, replaces the last-picture buffer
on success, and transitions to `DECODED`. Decode failure keeps state at `ACCUMULATING`/fails
the call without corrupting the previous last-picture." Outside `ACCUMULATING` the call is
`InvalidState`. -/
def decode_frame (c : Collaborators) (cxt : H264_context) (H264_data : List Nat) (last : Bool)
    (s : Engine) : Except EngineError Unit × Engine :=
  match s.contexts cxt with
  | none => (.error .InvalidHandle, s)
  | some x =>
    if x.state ≠ .ACCUMULATING then (.error .InvalidState, s)
    else if !last then
      (.ok (), s.set_context cxt { x with accumulated := x.accumulated ++ H264_data })
    else
      match c.decode (x.accumulated ++ H264_data) with
      | some picture =>
        (.ok (), s.set_context cxt
          { x with accumulated := x.accumulated ++ H264_data, picture := some picture
                   state := .DECODED })
      | none =>
        (.error .CodecFailure,
          s.set_context cxt { x with accumulated := x.accumulated ++ H264_data })

/-- Modelled from the spec: the blit region of a context: its destination rectangle,
"restricted to the union of dirty rectangles if provided (partial update) or the full
rectangle otherwise". -/
def in_region (dest : SIGNED_RECT) (dirty_rects : List SIGNED_RECT) (x y : Int) : Bool :=
  dest.covers x y &&
    (dirty_rects.isEmpty || dirty_rects.any (fun d => d.covers (x - dest.x0) (y - dest.y0)))

/-- Modelled from the spec: the merge algorithm ("Compositor"), steps 1 to 3, as the new
content of the canvas buffer: inside the blit region the context's picture (when it has
one), then the frame buffer of `compose_with_fb` when there is one, then the overlay
objects; outside the blit region the buffer is untouched. -/
def merge (c : Collaborators) (x : DecodeContext) (fb : Option image_buf)
    (overlays : List OverlayObject) (buffer : Pixels) : Pixels :=
  fun px py =>
    if in_region x.dest x.dirty_rects px py then
      let base : Nat :=
        match x.picture with
        | some picture => picture (px - x.dest.x0) (py - x.dest.y0)
        | none => buffer px py
      let with_fb : Nat :=
        match fb with
        | some b =>
          over c (b.bits (px - x.dest.x0) (py - x.dest.y0),
                  alpha_of b.pixel_format (b.bits (px - x.dest.x0) (py - x.dest.y0))) base
        | none => base
      draw_objects c overlays px py with_fb
    else buffer px py

/-- Modelled from the spec: `compose_with_rects(objects, last)`: "valid only from
`DECODED`"; the objects are applied to the overlay store of the owning canvas; the
terminating call (`last`) performs the merge, marks the canvas dirty for push and moves the
context to `COMPOSED`. -/
def compose_with_rects (c : Collaborators) (cxt : H264_context) (objects : List image_buf)
    (last : Bool) (s : Engine) : Except EngineError Unit × Engine :=
  match s.contexts cxt with
  | none => (.error .InvalidHandle, s)
  | some x =>
    if x.state ≠ .DECODED then (.error .InvalidState, s)
    else
      match s.canvases x.canvas with
      | none => (.error .InvalidHandle, s)
      | some k =>
        let overlays := objects.foldl apply_op k.overlays
        if !last then (.ok (), s.set_canvas x.canvas { k with overlays := overlays })
        else
          (.ok (),
            (s.set_canvas x.canvas
                { k with overlays := overlays
                         buffer := merge c x none overlays k.buffer
                         dirty := true }).set_context cxt { x with state := .COMPOSED })

/-- Modelled from the spec: `compose_with_fb(fb, interesting_rects)`: "valid only from
`DECODED`"; performs the merge with the frame buffer and moves the context to `COMPOSED`.
The interesting rectangles are a hint. -/
def compose_with_fb (c : Collaborators) (cxt : H264_context) (fb : image_buf)
    (_interesting_rects : List SIGNED_RECT) (s : Engine) : Except EngineError Unit × Engine :=
  match s.contexts cxt with
  | none => (.error .InvalidHandle, s)
  | some x =>
    if x.state ≠ .DECODED then (.error .InvalidState, s)
    else
      match s.canvases x.canvas with
      | none => (.error .InvalidHandle, s)
      | some k =>
        (.ok (),
          (s.set_canvas x.canvas
              { k with buffer := merge c x (some fb) k.overlays k.buffer
                       dirty := true }).set_context cxt { x with state := .COMPOSED })

/-- Modelled from the spec: `close_context`: any state to `CLOSED`; the context is released
and its handle becomes invalid. -/
def close_context (cxt : H264_context) (s : Engine) : Except EngineError Unit × Engine :=
  match s.contexts cxt with
  | none => (.error .InvalidHandle, s)
  | some _ =>
    (.ok (),
      { s with contexts := Function.update s.contexts cxt none
               num_contexts := s.num_contexts - 1 })

/-- Modelled from the spec: `copy_image(canvas, dest, source)`: fails with `OutOfBounds`
when the destination rectangle exceeds the canvas bounds; otherwise the source image is
copied into the rectangle and the canvas is marked dirty. -/
def copy_image (cxt : CANV_context) (dest : SIGNED_RECT) (source : image_buf) (s : Engine) :
    Except EngineError Unit × Engine :=
  match s.canvases cxt with
  | none => (.error .InvalidHandle, s)
  | some k =>
    if dest.exceeds k.width k.height then (.error .OutOfBounds, s)
    else
      (.ok (), s.set_canvas cxt
        { k with
          buffer := fun px py =>
            if dest.covers px py then
              source.bits (px - dest.x0 + source.src_x) (py - dest.y0 + source.src_y)
            else k.buffer px py
          dirty := true })

/-- Modelled from the spec: `fill_rect(canvas, rect, rgb)`: fails with `OutOfBounds` when
the rectangle exceeds the canvas bounds; otherwise the rectangle is filled with the colour
and the canvas is marked dirty. -/
def fill_rect (cxt : CANV_context) (rect : SIGNED_RECT) (rgb : Nat) (s : Engine) :
    Except EngineError Unit × Engine :=
  match s.canvases cxt with
  | none => (.error .InvalidHandle, s)
  | some k =>
    if rect.exceeds k.width k.height then (.error .OutOfBounds, s)
    else
      (.ok (), s.set_canvas cxt
        { k with
          buffer := fun px py => if rect.covers px py then rgb else k.buffer px py
          dirty := true })

/-- The pixel content of a canvas buffer, blank for an unknown handle. -/
def Engine.buffer_of (s : Engine) (h : CANV_context) : Pixels :=
  match s.canvases h with
  | some k => k.buffer
  | none => fun _ _ => 0

/-- Sample collaborators: the codec rejects an empty frame and otherwise decodes to a
uniform picture whose pixel is the sum of the bytes; blending averages; the backend always
presents; no limit on contexts and canvasses. -/
def sample_collaborators : Collaborators :=
  { decode := fun bytes => if bytes.isEmpty then none else some (fun _ _ => bytes.sum)
    blend := fun top below => (top + below) / 2
    present := fun _ _ => true
    max_contexts := 0
    max_canvasses := 0
    max_width := 4096
    max_height := 4096
    retain_small_frames := false }

/-- A 2 x 1 canvas (handle 1) with a decode context (handle 1) over the whole of it. -/
def sample_engine : Engine :=
  (create_h264_context sample_collaborators 1 { x0 := 0, y0 := 0, x1 := 2, y1 := 1 }
    .H264_CHROMA_FORMAT_420
    (create_canvas sample_collaborators 2 1 .PIXEL_FORMAT_ARGB 0 0 Engine.initial).2).2

/-- The sample engine with a frame of bytes `[3, 4]` started with the given dirty
rectangles and decoded: the context is `DECODED`, about to be composed. -/
def sample_decoded (dirty_rects : List SIGNED_RECT) : Engine :=
  (decode_frame sample_collaborators 1 [3, 4] true
    (start_frame sample_collaborators 1 2 dirty_rects sample_engine).2).2

/-- The two compose entry points with their arguments: `compose_with_fb(fb,
interesting_rects)` and the terminating call of `compose_with_rects(objects)`. -/
inductive Compose where
  | with_fb (fb : image_buf) (interesting_rects : List SIGNED_RECT)
  | with_rects (objects : List image_buf)

/-- The call of a compose entry point. -/
def Compose.call (c : Collaborators) (cxt : H264_context) (p : Compose) (s : Engine) :
    Except EngineError Unit × Engine :=
  match p with
  | .with_fb fb interesting_rects => compose_with_fb c cxt fb interesting_rects s
  | .with_rects objects => compose_with_rects c cxt objects true s

/-- The frame buffer a compose merges, if any. -/
def Compose.fb : Compose → Option image_buf
  | .with_fb fb _ => some fb
  | .with_rects _ => none

/-- The overlay store after a compose, from the store before it. -/
def Compose.store : Compose → List OverlayObject → List OverlayObject
  | .with_fb _ _, s => s
  | .with_rects objects, s => objects.foldl apply_op s

/-- A draw operation for the 1 x 1 rectangle at (1, 0): one opaque pixel. -/
def sample_draw : image_buf :=
  { cb_size := 0, bits := fun _ _ => 0xFF0000FF, pixel_format := .PIXEL_FORMAT_ARGB
    lossless_op := .IMAGE_OP_DRAW_LOSSLESS, stride := 4, width := 1, height := 1
    dst_x := 1, dst_y := 0, src_x := 0, src_y := 0, col := 0 }

/-- The sample engine, decoded, with `sample_draw` in the overlay store of its canvas (by a
call of `compose_with_rects` that is not the terminating one). -/
def sample_overlaid : Engine :=
  (compose_with_rects sample_collaborators 1 [sample_draw] false (sample_decoded [])).2

/-- A delete operation for the 1 x 1 rectangle at (0, 0). -/
def sample_delete : image_buf :=
  { cb_size := 0, bits := fun _ _ => 0, pixel_format := .PIXEL_FORMAT_ARGB
    lossless_op := .IMAGE_OP_DELETE_LOSSLESS, stride := 4, width := 1, height := 1
    dst_x := 0, dst_y := 0, src_x := 0, src_y := 0, col := 0 }

end H264

namespace CtxJpeg

/-! ## Machine integers: lemmas -/

theorem toU32_natCast (n : Nat) : toU32 (n : Int) = n % 4294967296 := by
  unfold toU32; omega

theorem toU32_of_lt (n : Nat) (h : n < 4294967296) : toU32 (n : Int) = n := by
  unfold toU32; omega

theorem quiet_refl (w : World) : quiet w w := ⟨[], by simp, by simp⟩

theorem quiet_log {w w1 : World} (c : LibCall) (h : quiet w w1) : quiet w (w1.log c false) := by
  obtain ⟨evs, h1, h2⟩ := h
  refine ⟨evs ++ [⟨c, false⟩], by simp [World.log, h1], ?_⟩
  intro e he
  rcases List.mem_append.1 he with h | h
  · exact h2 e h
  · simp at h; rw [h]

theorem quiet_mem {w w1 : World} (m : Nat → Nat) (h : quiet w w1) :
    quiet w { w1 with mem := m } := h

theorem quiet_trans {w w1 w2 : World} (h : quiet w w1) (h' : quiet w1 w2) : quiet w w2 := by
  obtain ⟨evs, h1, h2⟩ := h
  obtain ⟨evs', h1', h2'⟩ := h'
  refine ⟨evs ++ evs', by rw [h1', h1, List.append_assoc], ?_⟩
  intro e he
  rcases List.mem_append.1 he with h | h
  · exact h2 e h
  · exact h2' e h

theorem raisedIn_log {w w1 : World} (c : LibCall) (h : quiet w w1) :
    raisedIn w (w1.log c true) := by
  obtain ⟨evs, h1, _⟩ := h
  exact ⟨evs ++ [⟨c, true⟩], by simp [World.log, h1], ⟨c, true⟩, by simp, rfl⟩

theorem raisedIn_trans {w w1 w2 : World} (h : quiet w w1) (h' : raisedIn w1 w2) :
    raisedIn w w2 := by
  obtain ⟨evs, h1, _⟩ := h
  obtain ⟨evs', h1', e, he, hr⟩ := h'
  exact ⟨evs ++ evs', by rw [h1', h1, List.append_assoc], e, List.mem_append.2 (Or.inr he), hr⟩

theorem traced_trans {α : Type} {w w1 : World} (x : Res α) (h : quiet w w1)
    (hx : x.traced w1) : x.traced w := by
  cases x with
  | hang r w2 => exact quiet_trans h hx
  | longjmp r w2 => exact raisedIn_trans h hx
  | ok a r w2 => exact quiet_trans h hx

theorem turbo_loop_traced {π : Type} (lib : LibJpeg π) (decode_height stride : Int) (fuel : Nat) :
    ∀ (cinfo : jpeg_decompress_struct π) (pBmpRow : Nat) (r : JPEG_request) (w : World),
      (turbo_loop lib decode_height stride fuel cinfo pBmpRow r w).traced w := by
  induction fuel with
  | zero =>
    intro cinfo pBmpRow r w
    rw [turbo_loop]
    split <;> exact quiet_refl w
  | succ k ih =>
    intro cinfo pBmpRow r w
    rw [turbo_loop]
    split
    · split
      · exact raisedIn_log _ (quiet_refl w)
      · rename_i line cinfo1 _
        apply traced_trans _ _ (ih _ _ _ _)
        cases line with
        | none => exact quiet_log _ (quiet_refl w)
        | some bytes => exact quiet_mem _ (quiet_log _ (quiet_refl w))
    · exact quiet_refl w

theorem plain_loop_traced {π : Type} (lib : LibJpeg π) (decode_height stride : Int) (fuel : Nat) :
    ∀ (cinfo : jpeg_decompress_struct π) (scan : List Nat) (pBmpRow : Nat) (r : JPEG_request)
      (w : World), (plain_loop lib decode_height stride fuel cinfo scan pBmpRow r w).traced w := by
  induction fuel with
  | zero =>
    intro cinfo scan pBmpRow r w
    rw [plain_loop]
    split <;> exact quiet_refl w
  | succ k ih =>
    intro cinfo scan pBmpRow r w
    rw [plain_loop]
    split
    · split
      · exact raisedIn_log _ (quiet_refl w)
      · apply traced_trans _ _ (ih _ _ _ _ _)
        exact quiet_mem _ (quiet_log _ (quiet_refl w))
    · exact quiet_refl w

theorem decode_lines_traced {π : Type} (env : Env) (lib : LibJpeg π) (fuel : Nat)
    (cinfo : jpeg_decompress_struct π) (decode_height stride : Int)
    (r : JPEG_request) (w : World) :
    (decode_lines env lib fuel cinfo decode_height stride r w).traced w := by
  unfold decode_lines
  split
  · have h := turbo_loop_traced lib decode_height stride fuel cinfo r.buffer r w
    split <;> rename_i heq <;> rw [heq] at h <;> exact h
  · split
    · split
      · exact raisedIn_log _ (quiet_refl w)
      · exact quiet_log _ (quiet_refl w)
    · split
      · exact raisedIn_log _ (quiet_refl w)
      · rename_i scan cinfo1 _
        have h := plain_loop_traced lib decode_height stride fuel cinfo1 scan r.buffer r
          (w.log .alloc_sarray false)
        have hq : quiet w (w.log .alloc_sarray false) := quiet_log _ (quiet_refl w)
        split <;> rename_i heq <;> rw [heq] at h
        · exact quiet_trans hq h
        · exact raisedIn_trans hq h
        · exact quiet_trans hq h

theorem finish_lines_traced {π : Type} (lib : LibJpeg π) (cinfo : jpeg_decompress_struct π)
    (r : JPEG_request) (w : World) : (finish_lines lib cinfo r w).traced w := by
  unfold finish_lines
  split
  · split
    · exact raisedIn_log _ (quiet_refl w)
    · split
      · exact raisedIn_log _ (quiet_log _ (quiet_refl w))
      · exact quiet_log _ (quiet_log _ (quiet_refl w))
  · split
    · exact raisedIn_log _ (quiet_refl w)
    · split
      · exact raisedIn_log _ (quiet_log _ (quiet_refl w))
      · exact quiet_log _ (quiet_log _ (quiet_refl w))

theorem open_image_traced {π : Type} (env : Env) (lib : LibJpeg π)
    (r : JPEG_request) (w : World) : (open_image env lib r w).traced w := by
  unfold open_image
  repeat' ((try dsimp only); split)
  all_goals (repeat (first | exact quiet_refl w | apply quiet_log | apply raisedIn_log))

theorem decode_image_traced {π : Type} (env : Env) (lib : LibJpeg π) (fuel : Nat)
    (cinfo : jpeg_decompress_struct π) (r : JPEG_request) (w : World) :
    (decode_image env lib fuel cinfo r w).traced w := by
  unfold decode_image
  simp only
  generalize hd : decode_lines env lib fuel cinfo _ _ _ w = d
  have h := decode_lines_traced env lib fuel cinfo
    (if cropping env r cinfo.image_width = true then toI32 cinfo.image_height else r.crop_height)
    (if cropping env r cinfo.image_width = true then toI32 ((cinfo.image_width * 4) % 4294967296)
      else toI32 r.stride)
    (if cropping env r cinfo.image_width = true then { r with buffer := waste_of env cinfo }
      else r) w
  rw [hd] at h
  cases d with
  | hang r1 w4 => exact h
  | longjmp r1 w4 => exact h
  | ok a r1 w4 =>
    obtain ⟨b, cinfo6⟩ := a
    cases b with
    | false => exact h
    | true =>
      simp only
      have h5 := finish_lines_traced lib cinfo6 r1 w4
      generalize finish_lines lib cinfo6 r1 w4 = f at h5
      cases f with
      | hang r2 w5 => exact quiet_trans h h5
      | longjmp r2 w5 => exact raisedIn_trans h h5
      | ok c7 r2 w5 =>
        simp only
        split
        · exact quiet_mem _ (quiet_trans h h5)
        · exact quiet_trans h h5

theorem start_decode_body_traced {π : Type} (env : Env) (lib : LibJpeg π) (fuel : Nat)
    (r : JPEG_request) (w : World) : (start_decode_body env lib fuel r w).traced w := by
  unfold start_decode_body
  have h := open_image_traced env lib r w
  generalize open_image env lib r w = o at h
  cases o with
  | hang r1 w1 => exact h
  | longjmp r1 w1 => exact h
  | ok a r1 w1 =>
    cases a with
    | none => exact h
    | some cinfo => exact traced_trans _ h (decode_image_traced env lib fuel cinfo r1 w1)

theorem quiet_new_calls {w w1 : World} (h : quiet w w1) (e : Event)
    (he : e ∈ w1.calls.drop w.calls.length) : e.raised = false := by
  obtain ⟨evs, h1, h2⟩ := h
  rw [h1, List.drop_left] at he
  exact h2 e he

/-! ## The request structure along a run: lemmas -/

theorem turbo_loop_holds {π : Type} (lib : LibJpeg π) (decode_height stride : Int) (fuel : Nat) :
    ∀ (cinfo : jpeg_decompress_struct π) (pBmpRow : Nat) (r : JPEG_request) (w : World),
      (turbo_loop lib decode_height stride fuel cinfo pBmpRow r w).holds
        (fun _ r1 => r1 = r) (fun r1 => r1 = r) := by
  induction fuel with
  | zero =>
    intro cinfo pBmpRow r w
    rw [turbo_loop]
    split <;> rfl
  | succ k ih =>
    intro cinfo pBmpRow r w
    rw [turbo_loop]
    split
    · split
      · rfl
      · exact ih _ _ _ _
    · rfl

theorem plain_loop_holds {π : Type} (lib : LibJpeg π) (decode_height stride : Int) (fuel : Nat) :
    ∀ (cinfo : jpeg_decompress_struct π) (scan : List Nat) (pBmpRow : Nat) (r : JPEG_request)
      (w : World), (plain_loop lib decode_height stride fuel cinfo scan pBmpRow r w).holds
        (fun _ r1 => r1 = r) (fun r1 => r1 = r) := by
  induction fuel with
  | zero =>
    intro cinfo scan pBmpRow r w
    rw [plain_loop]
    split <;> rfl
  | succ k ih =>
    intro cinfo scan pBmpRow r w
    rw [plain_loop]
    split
    · split
      · rfl
      · exact ih _ _ _ _ _
    · rfl

theorem decode_lines_holds {π : Type} (env : Env) (lib : LibJpeg π) (fuel : Nat)
    (cinfo : jpeg_decompress_struct π) (decode_height stride : Int)
    (r : JPEG_request) (w : World) :
    (decode_lines env lib fuel cinfo decode_height stride r w).holds
      (fun a r1 => if a.1 = true then r1 = r else r1 = { r with status := JPEG_BAD_PARAM })
      (fun r1 => r1 = r) := by
  unfold decode_lines
  split
  · have h := turbo_loop_holds lib decode_height stride fuel cinfo r.buffer r w
    split <;> rename_i heq <;> rw [heq] at h
    · exact h
    · exact h
    · simpa [Res.holds] using h
  · split
    · split
      · rfl
      · simp [Res.holds]
    · split
      · rfl
      · rename_i scan cinfo1 _
        have h := plain_loop_holds lib decode_height stride fuel cinfo1 scan r.buffer r
          (w.log .alloc_sarray false)
        split <;> rename_i heq <;> rw [heq] at h
        · exact h
        · exact h
        · simpa [Res.holds] using h

theorem finish_lines_holds {π : Type} (lib : LibJpeg π) (cinfo : jpeg_decompress_struct π)
    (r : JPEG_request) (w : World) :
    (finish_lines lib cinfo r w).holds (fun _ r1 => r1 = r) (fun r1 => r1 = r) := by
  unfold finish_lines
  repeat' split
  all_goals rfl

theorem open_image_holds {π : Type} (env : Env) (lib : LibJpeg π)
    (r : JPEG_request) (w : World) :
    (open_image env lib r w).holds
      (fun a r1 => if a.isSome = true then r1 = r else r1 = { r with status := JPEG_BAD_DATA })
      (fun r1 => r1 = r) := by
  unfold open_image
  repeat' ((try dsimp only); split)
  all_goals simp [Res.holds]

/-- The request structure at the end of `decode_image`: the one supplied with status
`JPEG_SUCCESS`, or the one it works on (buffer replaced when cropping), with status
`JPEG_BAD_PARAM` when it bailed out. -/
theorem decode_image_holds {π : Type} (env : Env) (lib : LibJpeg π) (fuel : Nat)
    (cinfo : jpeg_decompress_struct π) (r : JPEG_request) (w : World) :
    (decode_image env lib fuel cinfo r w).holds
      (fun _ r1 => r1 = { r with status := JPEG_SUCCESS } ∨
        r1 = { (if cropping env r cinfo.image_width = true
                then { r with buffer := waste_of env cinfo } else r) with
                status := JPEG_BAD_PARAM })
      (fun r1 => r1 = if cropping env r cinfo.image_width = true
                then { r with buffer := waste_of env cinfo } else r) := by
  unfold decode_image
  simp only
  have h := decode_lines_holds env lib fuel cinfo
    (if cropping env r cinfo.image_width = true then toI32 cinfo.image_height else r.crop_height)
    (if cropping env r cinfo.image_width = true then toI32 ((cinfo.image_width * 4) % 4294967296)
      else toI32 r.stride)
    (if cropping env r cinfo.image_width = true then { r with buffer := waste_of env cinfo }
      else r) w
  generalize decode_lines env lib fuel cinfo _ _ _ w = d at h
  cases d with
  | hang r1 w4 => exact h
  | longjmp r1 w4 => exact h
  | ok a r1 w4 =>
    obtain ⟨b, cinfo6⟩ := a
    cases b with
    | false =>
      simp only [Res.holds, Bool.false_eq_true, if_false] at h
      exact Or.inr h
    | true =>
      simp only [Res.holds, if_true] at h
      simp only
      have h5 := finish_lines_holds lib cinfo6 r1 w4
      generalize finish_lines lib cinfo6 r1 w4 = f at h5
      cases f with
      | hang r2 w5 => exact h5.trans h
      | longjmp r2 w5 => exact h5.trans h
      | ok c7 r2 w5 =>
        have h6 : r2 = r1 := h5
        subst h6
        by_cases hc : cropping env r cinfo.image_width = true
        · simp only [hc, if_true] at h ⊢
          subst h
          exact Or.inl rfl
        · simp only [hc, if_false] at h ⊢
          subst h
          exact Or.inl rfl

/-- Every way `start_decode` leaves a non-null request with both pointers set: only `status`
and `buffer` may differ from what the caller supplied, and a returned status is one of
`JPEG_SUCCESS`, `JPEG_BAD_DATA`, `JPEG_BAD_PARAM`, `JPEG_INTERNAL`. -/
theorem start_decode_body_holds {π : Type} (env : Env) (lib : LibJpeg π) (fuel : Nat)
    (r : JPEG_request) (w : World) :
    (start_decode_body env lib fuel r w).holds
      (fun _ r1 => ∃ s b, r1 = { r with status := s, buffer := b } ∧
        (s = JPEG_SUCCESS ∨ s = JPEG_BAD_DATA ∨ s = JPEG_BAD_PARAM))
      (fun r1 => ∃ b, r1 = { r with buffer := b }) := by
  unfold start_decode_body
  have h := open_image_holds env lib r w
  generalize open_image env lib r w = o at h
  cases o with
  | hang r1 w1 => exact ⟨r.buffer, h⟩
  | longjmp r1 w1 => exact ⟨r.buffer, h⟩
  | ok a r1 w1 =>
    cases a with
    | none =>
      simp only [Res.holds, Option.isSome_none, Bool.false_eq_true, if_false] at h
      exact ⟨JPEG_BAD_DATA, r.buffer, h, Or.inr (Or.inl rfl)⟩
    | some cinfo =>
      simp only [Res.holds, Option.isSome_some, if_true] at h
      subst h
      simp only
      have h2 := decode_image_holds env lib fuel cinfo r1 w1
      generalize decode_image env lib fuel cinfo r1 w1 = d at h2
      cases d with
      | hang r2 w2 =>
        simp only [Res.holds] at h2 ⊢
        split at h2
        · exact ⟨_, h2⟩
        · exact ⟨r1.buffer, h2⟩
      | longjmp r2 w2 =>
        simp only [Res.holds] at h2 ⊢
        split at h2
        · exact ⟨_, h2⟩
        · exact ⟨r1.buffer, h2⟩
      | ok u r2 w2 =>
        simp only [Res.holds] at h2 ⊢
        rcases h2 with h2 | h2
        · exact ⟨JPEG_SUCCESS, r1.buffer, h2, Or.inl rfl⟩
        · split at h2
          · exact ⟨JPEG_BAD_PARAM, _, h2, Or.inr (Or.inr rfl)⟩
          · exact ⟨JPEG_BAD_PARAM, r1.buffer, h2, Or.inr (Or.inr rfl)⟩

/-- The status values `start_decode` can return with, for a non-null request. -/
theorem start_decode_status_values {π : Type} (env : Env) (lib : LibJpeg π) (fuel : Nat)
    (r : JPEG_request) (w : World) (s : Int)
    (h : (start_decode env lib fuel (some r) w).status = some s) :
    s = JPEG_SUCCESS ∨ s = JPEG_BAD_DATA ∨ s = JPEG_BAD_PARAM ∨ s = JPEG_INTERNAL := by
  unfold start_decode at h
  by_cases hv : r.image = 0 ∨ r.buffer = 0
  · simp only [hv, if_true, Outcome.status, Option.map_some', Option.some.injEq] at h
    exact Or.inr (Or.inr (Or.inl h.symm))
  · simp only [hv, if_false] at h
    have hb := start_decode_body_holds env lib fuel r w
    generalize start_decode_body env lib fuel r w = b at hb h
    cases b with
    | hang r1 w1 => simp [Outcome.status] at h
    | longjmp r1 w1 =>
      simp only [Outcome.status, Option.map_some', Option.some.injEq] at h
      exact Or.inr (Or.inr (Or.inr h.symm))
    | ok a r1 w1 =>
      simp only [Outcome.status, Option.map_some', Option.some.injEq] at h
      obtain ⟨s1, b1, hr1, hs1⟩ := hb
      subst hr1
      simp only at h
      subst h
      rcases hs1 with h1 | h1 | h1
      · exact Or.inl h1
      · exact Or.inr (Or.inl h1)
      · exact Or.inr (Or.inr (Or.inl h1))

/-! ## The request structure does not depend on the world: lemmas -/

/-- With the reference library, the libjpeg-turbo loop reads lines up to `decode_height` and
ends normally. -/
theorem turbo_loop_libjpeg (input : Nat → Nat → JpegFile) (decode_height stride : Int)
    (ch : Nat) (hch : toU32 decode_height = ch) (r : JPEG_request) (fuel : Nat) :
    ∀ (c : jpeg_decompress_struct JState) (p : Nat) (w : World),
      c.internal.global_state = DSTATE_SCANNING → c.output_scanline ≤ ch →
      ch ≤ c.output_height → ch - c.output_scanline ≤ fuel →
      ∃ w1, turbo_loop (libjpeg true input) decode_height stride fuel c p r w
            = .ok { c with output_scanline := ch } r w1
          ∧ quiet w w1 := by
  induction fuel with
  | zero =>
    intro c p w _ h1 _ h3
    have hk : c.output_scanline = ch := by omega
    refine ⟨w, ?_, quiet_refl w⟩
    rw [turbo_loop, hch, if_neg (by omega)]
    subst hk
    rfl
  | succ k ih =>
    intro c p w hs h1 h2 h3
    rw [turbo_loop, hch]
    by_cases hlt : c.output_scanline < ch
    · rw [if_pos hlt]
      have hread : (libjpeg true input).jpeg_read_scanlines c
          = .value (some ((input c.internal.next_input_byte c.internal.bytes_in_buffer).samples
                      c.out_color_space c.output_scanline),
                    { c with output_scanline := c.output_scanline + 1 }) := by
        simp only [libjpeg, hs, if_true]
        rw [if_pos (by omega)]
      rw [hread]
      simp only
      obtain ⟨w1, h4, h5⟩ := ih { c with output_scanline := c.output_scanline + 1 }
        (toU32 ((p : Int) + stride))
        { mem := write_bytes (w.log .read_scanlines false).mem p
            ((input c.internal.next_input_byte c.internal.bytes_in_buffer).samples
              c.out_color_space c.output_scanline)
          calls := (w.log .read_scanlines false).calls }
        hs (by show c.output_scanline + 1 ≤ ch; omega) h2
        (by show ch - (c.output_scanline + 1) ≤ k; omega)
      exact ⟨w1, h4, quiet_trans (quiet_mem _ (quiet_log _ (quiet_refl w))) h5⟩
    · have hk : c.output_scanline = ch := by omega
      rw [if_neg hlt]
      refine ⟨w, ?_, quiet_refl w⟩
      subst hk
      rfl

/-- With libjpeg-turbo and the reference library, a request that passes the argument check,
for a JPEG image, with no cropping in effect and `0 < crop_height <= image_height`, returns
with `JPEG_SUCCESS` when `crop_height` is the image height and with `JPEG_INTERNAL` when it
is less: the end of a partial decode goes through `jpeg_finish_decompress`. -/
theorem partial_height_status (input : Nat → Nat → JpegFile) (env : Env) (fuel : Nat)
    (r : JPEG_request) (w : World) (ch : Nat)
    (himage : r.image ≠ 0) (hbuffer : r.buffer ≠ 0) (hturbo : env.use_turbo = true)
    (hjpeg : (input r.image r.size).is_jpeg = true)
    (hcrop : cropping env r (input r.image r.size).image_width = false)
    (hch : r.crop_height = (ch : Int)) (hle : ch ≤ (input r.image r.size).image_height)
    (h32 : (input r.image r.size).image_height < 4294967296) (hfuel : ch ≤ fuel) :
    (start_decode env (libjpeg true input) fuel (some r) w).status
      = some (if ch = (input r.image r.size).image_height then JPEG_SUCCESS
              else JPEG_INTERNAL) := by
  have hopen : open_image env (libjpeg true input) r w
      = .ok (some
          { image_width := (input r.image r.size).image_width
            image_height := (input r.image r.size).image_height
            out_color_space := JCS_EXT_BGRX
            output_components := 4
            output_height := (input r.image r.size).image_height
            output_scanline := 0
            internal := { global_state := DSTATE_SCANNING, next_input_byte := r.image
                          bytes_in_buffer := r.size } }) r
          ((((w.log .create_decompress false).log .alloc_small false).log .read_header
            false).log .start_decompress false) := by
    simp [open_image, libjpeg, srcmgr_jpeg_memory_src, hjpeg, hturbo, components_of,
      JCS_EXT_BGRX, DSTATE_START, DSTATE_READY, DSTATE_SCANNING, JPEG_HEADER_OK]
  have hdh : toU32 r.crop_height = ch := by rw [hch, toU32_of_lt _ (by omega)]
  obtain ⟨w1, hloop, _⟩ := turbo_loop_libjpeg input r.crop_height (toI32 r.stride) ch hdh r fuel
    { image_width := (input r.image r.size).image_width
      image_height := (input r.image r.size).image_height
      out_color_space := JCS_EXT_BGRX
      output_components := 4
      output_height := (input r.image r.size).image_height
      output_scanline := 0
      internal := { global_state := DSTATE_SCANNING, next_input_byte := r.image
                    bytes_in_buffer := r.size } } r.buffer
    ((((w.log .create_decompress false).log .alloc_small false).log .read_header
            false).log .start_decompress false) rfl (Nat.zero_le _) hle (by simpa using hfuel)
  unfold start_decode
  simp only [himage, hbuffer, or_self, if_false]
  unfold start_decode_body
  rw [hopen]
  simp only
  unfold decode_image
  simp only [hcrop, Bool.false_eq_true, if_false]
  unfold decode_lines
  simp only [hturbo, if_true]
  rw [hloop]
  simp only
  unfold finish_lines
  simp only [lt_irrefl, if_false]
  by_cases hfull : ch = (input r.image r.size).image_height
  · simp [libjpeg, DSTATE_SCANNING, hfull, Outcome.status]
  · have hlt : ch < (input r.image r.size).image_height := by omega
    simp [libjpeg, DSTATE_SCANNING, hfull, hlt, Outcome.status]

/-! ## Decoding with the reference library: lemmas -/

/-- The function `atoi` returns an `int`. -/
theorem atoi_le (s : String) : atoi s ≤ 2147483647 := by
  unfold atoi
  simp only
  omega

/-! ## Claims -/

/-- C1 (defect in the code): a request for the first line only of the 2 x 2 sample image,
with no crop offsets, is decoded (one line is read and stored at the start of the buffer)
but does not complete with `JPEG_SUCCESS`: `start_decode` tests `output_height` where it
means the number of lines read, so it calls `jpeg_finish_decompress` instead of
`jpeg_abort_decompress`, the library reports the early call through `error_exit`, and the
request ends with `JPEG_INTERNAL`. With or without libjpeg-turbo. -/
theorem C1_partial_height_ends_internal :
    (start_decode sample_env (libjpeg true sample_input) 8
        (some { sample_request with crop_height := 1 }) sample_world).status
      = some JPEG_INTERNAL
    ∧ (start_decode sample_env (libjpeg true sample_input) 8
        (some { sample_request with crop_height := 1 }) sample_world).world.calls
      = [⟨.create_decompress, false⟩, ⟨.alloc_small, false⟩, ⟨.read_header, false⟩,
          ⟨.start_decompress, false⟩, ⟨.read_scanlines, false⟩, ⟨.finish_decompress, true⟩]
    ∧ (List.range 8).map (fun i =>
        (start_decode sample_env (libjpeg true sample_input) 8
          (some { sample_request with crop_height := 1 }) sample_world).world.mem (8192 + i))
      = [1, 2, 3, 255, 5, 6, 7, 255]
    ∧ (start_decode sample_env_plain (libjpeg false sample_input) 8
        (some { sample_request with crop_height := 1 }) sample_world).status
      = some JPEG_INTERNAL := by
  refine ⟨by decide, by decide, by decide, by decide⟩

/-- C4: for a request that passes the argument check, if any library call made by
`start_decode` ends in `error_exit`, the call of `start_decode` returns (it does not run
on) and the request status is `JPEG_INTERNAL`. -/
theorem C4_library_error_gives_internal {π : Type} (env : Env) (lib : LibJpeg π) (fuel : Nat)
    (r : JPEG_request) (w : World) (himage : r.image ≠ 0) (hbuffer : r.buffer ≠ 0)
    (e : Event) (he : e ∈ (start_decode env lib fuel (some r) w).new_calls w)
    (hraised : e.raised = true) :
    (start_decode env lib fuel (some r) w).isReturned = true ∧
      (start_decode env lib fuel (some r) w).status = some JPEG_INTERNAL := by
  have ht := start_decode_body_traced env lib fuel r w
  unfold start_decode at he ⊢
  simp only [himage, hbuffer, or_self, if_false] at he ⊢
  generalize start_decode_body env lib fuel r w = b at ht he
  cases b with
  | hang r1 w1 =>
    have hq : quiet w w1 := ht
    have := quiet_new_calls hq e he
    rw [hraised] at this
    exact absurd this (by decide)
  | longjmp r1 w1 => exact ⟨rfl, rfl⟩
  | ok a r1 w1 =>
    have hq : quiet w w1 := ht
    have := quiet_new_calls hq e he
    rw [hraised] at this
    exact absurd this (by decide)

/-- Witness for C4: input bytes that are no JPEG image make `jpeg_read_header` call
`error_exit`. -/
theorem C4_library_error_gives_internal_witness :
    (⟨.read_header, true⟩ : Event) ∈
        (start_decode sample_env (libjpeg true sample_input) 8
          (some { sample_request with image := 5000 }) sample_world).new_calls sample_world
    ∧ (start_decode sample_env (libjpeg true sample_input) 8
          (some { sample_request with image := 5000 }) sample_world).isReturned = true
    ∧ (start_decode sample_env (libjpeg true sample_input) 8
          (some { sample_request with image := 5000 }) sample_world).status
        = some JPEG_INTERNAL :=
  ⟨by decide,
    C4_library_error_gives_internal sample_env (libjpeg true sample_input) 8
      { sample_request with image := 5000 } sample_world (by decide) (by decide)
      ⟨.read_header, true⟩ (by decide) rfl⟩

/-- C5: for a request that passes the argument check, once the decompression object is
created and pointed at the input: if `jpeg_read_header` returns anything other than
`JPEG_HEADER_OK`, or if it returns `JPEG_HEADER_OK` and `jpeg_start_decompress` returns
false, then (`jpeg_destroy_decompress` returning) `start_decode` returns with status
`JPEG_BAD_DATA` and every other field as supplied, the last library call is
`jpeg_destroy_decompress`, no line was read and memory is as before. -/
theorem C5_invalid_input_gives_bad_data {π : Type} (env : Env) (lib : LibJpeg π) (fuel : Nat)
    (r : JPEG_request) (w : World) (c0 c2 : jpeg_decompress_struct π)
    (himage : r.image ≠ 0) (hbuffer : r.buffer ≠ 0)
    (hcreate : lib.jpeg_create_decompress = .value c0)
    (hsrc : srcmgr_jpeg_memory_src lib c0 r.image r.size = .value c2) :
    (∀ (rc : Int) (c3 c4 : jpeg_decompress_struct π),
        lib.jpeg_read_header c2 = .value (rc, c3) → rc ≠ JPEG_HEADER_OK →
        lib.jpeg_destroy_decompress c3 = .value c4 →
        start_decode env lib fuel (some r) w =
          .returned (some { r with status := JPEG_BAD_DATA })
            { mem := w.mem
              calls := w.calls ++ [⟨.create_decompress, false⟩, ⟨.alloc_small, false⟩,
                ⟨.read_header, false⟩, ⟨.destroy_decompress, false⟩] })
    ∧ (∀ (c3 c5 c6 : jpeg_decompress_struct π),
        lib.jpeg_read_header c2 = .value (JPEG_HEADER_OK, c3) →
        lib.jpeg_start_decompress
            (if env.use_turbo then { c3 with out_color_space := JCS_EXT_BGRX } else c3)
          = .value (false, c5) →
        lib.jpeg_destroy_decompress c5 = .value c6 →
        start_decode env lib fuel (some r) w =
          .returned (some { r with status := JPEG_BAD_DATA })
            { mem := w.mem
              calls := w.calls ++ [⟨.create_decompress, false⟩, ⟨.alloc_small, false⟩,
                ⟨.read_header, false⟩, ⟨.start_decompress, false⟩,
                ⟨.destroy_decompress, false⟩] }) := by
  constructor
  · intro rc c3 c4 hhdr hrc hdestroy
    unfold start_decode
    simp only [himage, hbuffer, or_self, if_false]
    unfold start_decode_body open_image
    simp only [hcreate, hsrc, hhdr, hrc, hdestroy, ne_eq, not_false_eq_true, if_true,
      World.log, List.append_assoc, List.cons_append, List.nil_append]
  · intro c3 c5 c6 hhdr hstart hdestroy
    unfold start_decode
    simp only [himage, hbuffer, or_self, if_false]
    unfold start_decode_body open_image
    simp only [hcreate, hsrc, hhdr, hstart, hdestroy, ne_eq, not_true_eq_false, if_false,
      Bool.not_false, if_true, World.log, List.append_assoc, List.cons_append, List.nil_append]

/-- Witness for C5: a library whose `jpeg_read_header` returns 0 (suspended), and one whose
`jpeg_start_decompress` returns false. -/
theorem C5_invalid_input_gives_bad_data_witness :
    start_decode sample_env (stub_lib 0 true) 8 (some sample_request) sample_world =
        .returned (some { sample_request with status := JPEG_BAD_DATA })
          { mem := sample_world.mem
            calls := sample_world.calls ++ [⟨.create_decompress, false⟩, ⟨.alloc_small, false⟩,
              ⟨.read_header, false⟩, ⟨.destroy_decompress, false⟩] }
    ∧ start_decode sample_env (stub_lib JPEG_HEADER_OK false) 8 (some sample_request)
          sample_world =
        .returned (some { sample_request with status := JPEG_BAD_DATA })
          { mem := sample_world.mem
            calls := sample_world.calls ++ [⟨.create_decompress, false⟩, ⟨.alloc_small, false⟩,
              ⟨.read_header, false⟩, ⟨.start_decompress, false⟩,
              ⟨.destroy_decompress, false⟩] } :=
  ⟨(C5_invalid_input_gives_bad_data sample_env (stub_lib 0 true) 8 sample_request sample_world
      _ _ (by decide) (by decide) rfl rfl).1 0 _ _ rfl (by decide) rfl,
   (C5_invalid_input_gives_bad_data sample_env (stub_lib JPEG_HEADER_OK false) 8 sample_request
      sample_world _ _ (by decide) (by decide) rfl rfl).2 _ _ _ rfl rfl rfl⟩

/-- C6: for a null request `start_decode` does nothing; for a non-null request whose image
pointer or output buffer pointer is null it sets the status to `JPEG_BAD_PARAM`, makes no
library call, leaves memory alone and leaves every other field of the request unchanged. -/
theorem C6_argument_validation {π : Type} (env : Env) (lib : LibJpeg π) (fuel : Nat)
    (r : JPEG_request) (w : World) (h : r.image = 0 ∨ r.buffer = 0) :
    start_decode env lib fuel (some r) w =
        .returned (some { r with status := JPEG_BAD_PARAM }) w
    ∧ start_decode env lib fuel none w = .returned none w := by
  unfold start_decode
  simp only [h, if_true, and_self]

/-- Witness for C6: the sample request with a null output buffer. -/
theorem C6_argument_validation_witness :
    ((({ sample_request with buffer := 0 } : JPEG_request).image = 0
        ∨ ({ sample_request with buffer := 0 } : JPEG_request).buffer = 0))
    ∧ start_decode sample_env (libjpeg true sample_input) 8
          (some { sample_request with buffer := 0 }) sample_world =
        .returned (some { { sample_request with buffer := 0 } with status := JPEG_BAD_PARAM })
          sample_world
    ∧ start_decode sample_env (libjpeg true sample_input) 8 none sample_world =
        .returned none sample_world :=
  ⟨by decide,
    C6_argument_validation sample_env (libjpeg true sample_input) 8
      { sample_request with buffer := 0 } sample_world (by decide)⟩

/-- C7: for a non-null request, when `start_decode` returns, the status is one of
`JPEG_SUCCESS`, `JPEG_BAD_DATA`, `JPEG_BAD_PARAM`, `JPEG_INTERNAL`, never `JPEG_BUSY`; and the
decoder advertises neither `BACKGROUND_DECODING` nor a completion method. -/
theorem C7_synchronous_completion {π : Type} (env : Env) (lib : LibJpeg π) (fuel : Nat)
    (r : JPEG_request) (w : World) (s : Int)
    (h : (start_decode env lib fuel (some r) w).status = some s) :
    (s = JPEG_SUCCESS ∨ s = JPEG_BAD_DATA ∨ s = JPEG_BAD_PARAM ∨ s = JPEG_INTERNAL)
      ∧ s ≠ JPEG_BUSY
      ∧ JPEG_decoder.completion_handling &&&
          (BACKGROUND_DECODING ||| COMPLETION_CALLBACK ||| COMPLETION_SIGNAL ||| COMPLETION_FD)
        = 0 := by
  have key := start_decode_status_values env lib fuel r w s h
  refine ⟨key, ?_, by decide⟩
  rcases key with h1 | h1 | h1 | h1 <;> rw [h1] <;> decide

/-- Witness for C7: the sample request for the whole sample image returns `JPEG_SUCCESS`. -/
theorem C7_synchronous_completion_witness :
    (start_decode sample_env (libjpeg true sample_input) 8 (some sample_request)
        sample_world).status = some JPEG_SUCCESS
    ∧ (JPEG_SUCCESS = JPEG_SUCCESS ∨ JPEG_SUCCESS = JPEG_BAD_DATA ∨ JPEG_SUCCESS = JPEG_BAD_PARAM
        ∨ JPEG_SUCCESS = JPEG_INTERNAL)
    ∧ JPEG_SUCCESS ≠ JPEG_BUSY
    ∧ JPEG_decoder.completion_handling &&&
          (BACKGROUND_DECODING ||| COMPLETION_CALLBACK ||| COMPLETION_SIGNAL ||| COMPLETION_FD)
        = 0 :=
  ⟨by decide,
    C7_synchronous_completion sample_env (libjpeg true sample_input) 8 sample_request
      sample_world JPEG_SUCCESS (by decide)⟩

/-- C8 as stated fails: the sample request asking for a 5 x 7 image, while the image is
2 x 2, returns with `JPEG_SUCCESS`, not `JPEG_BAD_FIT`, and its width and height are still
5 and 7. -/
theorem C8_size_mismatch_counterexample :
    (sample_input 4096 700).image_width = 2 ∧ (sample_input 4096 700).image_height = 2
    ∧ (start_decode sample_env (libjpeg true sample_input) 8
        (some { sample_request with width := 5, height := 7 }) sample_world).status
      = some JPEG_SUCCESS
    ∧ JPEG_SUCCESS ≠ JPEG_BAD_FIT
    ∧ (start_decode sample_env (libjpeg true sample_input) 8
        (some { sample_request with width := 5, height := 7 }) sample_world).request.map
          (fun q => (q.width, q.height))
      = some (5, 7) := by
  refine ⟨by decide, by decide, by decide, by decide, by decide⟩

/-- C8 (amended): `start_decode` does not compare the width and height of the request with
the image: for every non-null request, whatever their values, the status is never
`JPEG_BAD_FIT` and width and height are left as the caller supplied them. -/
theorem C8_width_height_not_checked {π : Type} (env : Env) (lib : LibJpeg π) (fuel : Nat)
    (r r1 : JPEG_request) (w : World)
    (h : (start_decode env lib fuel (some r) w).request = some r1) :
    r1.width = r.width ∧ r1.height = r.height
      ∧ (start_decode env lib fuel (some r) w).status ≠ some JPEG_BAD_FIT := by
  have hst : (start_decode env lib fuel (some r) w).status ≠ some JPEG_BAD_FIT := by
    intro hs
    have := start_decode_status_values env lib fuel r w JPEG_BAD_FIT hs
    revert this
    decide
  refine ⟨?_, ?_, hst⟩
  all_goals
    unfold start_decode at h
    by_cases hv : r.image = 0 ∨ r.buffer = 0
    · simp only [hv, if_true, Outcome.request, Option.some.injEq] at h
      subst h; rfl
    · simp only [hv, if_false] at h
      have hb := start_decode_body_holds env lib fuel r w
      generalize start_decode_body env lib fuel r w = b at hb h
      cases b with
      | hang r2 w1 =>
        simp only [Outcome.request, Option.some.injEq] at h
        obtain ⟨b1, hr1⟩ := hb
        subst hr1; subst h; rfl
      | longjmp r2 w1 =>
        simp only [Outcome.request, Option.some.injEq] at h
        obtain ⟨b1, hr1⟩ := hb
        subst hr1; subst h; rfl
      | ok a r2 w1 =>
        simp only [Outcome.request, Option.some.injEq] at h
        obtain ⟨s1, b1, hr1, _⟩ := hb
        subst hr1; subst h; rfl

/-- Witness for C8 (amended): the request of the counterexample. -/
theorem C8_width_height_not_checked_witness :
    (start_decode sample_env (libjpeg true sample_input) 8
        (some { sample_request with width := 5, height := 7 }) sample_world).request
      = some { sample_request with width := 5, height := 7, status := JPEG_SUCCESS }
    ∧ ({ sample_request with width := 5, height := 7, status := JPEG_SUCCESS }
          : JPEG_request).width
        = ({ sample_request with width := 5, height := 7 } : JPEG_request).width
    ∧ ({ sample_request with width := 5, height := 7, status := JPEG_SUCCESS }
          : JPEG_request).height
        = ({ sample_request with width := 5, height := 7 } : JPEG_request).height
    ∧ (start_decode sample_env (libjpeg true sample_input) 8
        (some { sample_request with width := 5, height := 7 }) sample_world).status
      ≠ some JPEG_BAD_FIT :=
  ⟨by decide,
    C8_width_height_not_checked sample_env (libjpeg true sample_input) 8
      { sample_request with width := 5, height := 7 }
      { sample_request with width := 5, height := 7, status := JPEG_SUCCESS }
      sample_world (by decide)⟩

/-- C9 (defect in the code): with cropping in effect `start_decode` points the buffer field
at its temporary block (65536 here) and restores the caller's pointer (8192) only at the
end of the successful path. A CMYK image without libjpeg-turbo returns `JPEG_BAD_PARAM`,
and a failed allocation of the sample row returns `JPEG_INTERNAL`, both with the buffer
field still the temporary block. -/
theorem C9_buffer_left_on_temporary_block :
    sample_request.buffer = 8192
    ∧ (start_decode sample_env_plain_crop (libjpeg false sample_input_cmyk) 8
        (some { sample_request with crop_x := 1, crop_width := 1 }) sample_world).request.map
          (fun q => (q.status, q.buffer))
      = some (JPEG_BAD_PARAM, 65536)
    ∧ (start_decode sample_env_plain_crop (libjpeg_no_memory sample_input) 8
        (some { sample_request with crop_x := 1, crop_width := 1 }) sample_world).request.map
          (fun q => (q.status, q.buffer))
      = some (JPEG_INTERNAL, 65536)
    ∧ (start_decode sample_env_plain_crop (libjpeg_no_memory sample_input) 8
        (some { sample_request with crop_x := 1, crop_width := 1 }) sample_world).isReturned
      = true := by
  refine ⟨by decide, by decide, by decide, by decide⟩

/-- C11: starting from the static initialisers, for every environment and every result of
`atoi` (any `int`), after `init_decoder`: `concurrency >= 1`; `BATCH_DECODING` is set in
`completion_handling` exactly when `CTXJPEG_FB_SW_BATCH_SIZE` is set and parses to a value
greater than 1, and then `concurrency` is that value; otherwise `concurrency` is 1 and
`completion_handling` is 0; and `batch_decode` is non-null whenever `BATCH_DECODING` is
set. -/
theorem C11_capabilities_after_init (lib : LibJpegCompress) (getenv : String → Option String)
    (atoi : String → Int) (hint : ∀ s, atoi s ≤ 2147483647) :
    1 ≤ (init_decoder lib getenv atoi static_globals).decoder.concurrency
    ∧ ((init_decoder lib getenv atoi static_globals).decoder.completion_handling
          &&& BATCH_DECODING ≠ 0
        ↔ ∃ s, getenv "CTXJPEG_FB_SW_BATCH_SIZE" = some s ∧ atoi s > 1)
    ∧ (∀ s, getenv "CTXJPEG_FB_SW_BATCH_SIZE" = some s → atoi s > 1 →
        ((init_decoder lib getenv atoi static_globals).decoder.concurrency : Int) = atoi s)
    ∧ ((¬ ∃ s, getenv "CTXJPEG_FB_SW_BATCH_SIZE" = some s ∧ atoi s > 1) →
        (init_decoder lib getenv atoi static_globals).decoder.concurrency = 1
        ∧ (init_decoder lib getenv atoi static_globals).decoder.completion_handling = 0)
    ∧ ((init_decoder lib getenv atoi static_globals).decoder.completion_handling
          &&& BATCH_DECODING ≠ 0 →
        (init_decoder lib getenv atoi static_globals).entries.batch_decode ≠ none) := by
  have hconc : ∀ t : Int, t > 1 → t ≤ 2147483647 → ((toU32 t : Nat) : Int) = t := by
    intro t h1 h2
    unfold toU32
    omega
  cases hb : getenv "CTXJPEG_FB_SW_BATCH_SIZE" with
  | none =>
    have hg : (init_decoder lib getenv atoi static_globals).decoder.concurrency = 1
        ∧ (init_decoder lib getenv atoi static_globals).decoder.completion_handling = 0
        ∧ (init_decoder lib getenv atoi static_globals).entries.batch_decode
            = some .batch_decode := by
      unfold init_decoder
      simp only [hb]
      split <;> exact ⟨rfl, rfl, rfl⟩
    obtain ⟨h1, h2, h3⟩ := hg
    rw [h1, h2, h3]
    refine ⟨le_refl 1, ?_, ?_, ?_, ?_⟩
    · simp
    · intro s hs; cases hs
    · intro _; exact ⟨rfl, rfl⟩
    · intro _; simp
  | some v =>
    by_cases ht : atoi v > 1
    · have hg : (init_decoder lib getenv atoi static_globals).decoder.concurrency
            = toU32 (atoi v)
          ∧ (init_decoder lib getenv atoi static_globals).decoder.completion_handling
            = 0 ||| BATCH_DECODING
          ∧ (init_decoder lib getenv atoi static_globals).entries.batch_decode
              = some .batch_decode := by
        unfold init_decoder
        simp only [hb, ht, if_true]
        split <;> exact ⟨rfl, rfl, rfl⟩
      obtain ⟨h1, h2, h3⟩ := hg
      rw [h1, h2, h3]
      have hc := hconc (atoi v) ht (hint v)
      refine ⟨by omega, ?_, ?_, ?_, ?_⟩
      · constructor
        · intro _; exact ⟨v, rfl, ht⟩
        · intro _; decide
      · intro s hs _
        cases hs
        exact hc
      · intro hn
        exact absurd ⟨v, rfl, ht⟩ hn
      · intro _; simp
    · have hg : (init_decoder lib getenv atoi static_globals).decoder.concurrency = 1
          ∧ (init_decoder lib getenv atoi static_globals).decoder.completion_handling = 0
          ∧ (init_decoder lib getenv atoi static_globals).entries.batch_decode
              = some .batch_decode := by
        unfold init_decoder
        simp only [hb, ht, if_false]
        split <;> exact ⟨rfl, rfl, rfl⟩
      obtain ⟨h1, h2, h3⟩ := hg
      rw [h1, h2, h3]
      refine ⟨le_refl 1, ?_, ?_, ?_, ?_⟩
      · constructor
        · intro h; exact absurd rfl h
        · rintro ⟨s, hs, hgt⟩
          cases hs
          exact absurd hgt ht
      · intro s hs hgt
        cases hs
        exact absurd hgt ht
      · intro _; exact ⟨rfl, rfl⟩
      · intro _; simp

/-- Witness for C11: `CTXJPEG_FB_SW_BATCH_SIZE=4` with the C library's `atoi`. -/
theorem C11_capabilities_after_init_witness :
    (∀ s, atoi s ≤ 2147483647)
    ∧ atoi "4" = 4
    ∧ 1 ≤ (init_decoder sample_compress (sample_getenv "4") atoi static_globals).decoder.concurrency
    ∧ ((init_decoder sample_compress (sample_getenv "4") atoi
            static_globals).decoder.completion_handling &&& BATCH_DECODING ≠ 0
        ↔ ∃ s, sample_getenv "4" "CTXJPEG_FB_SW_BATCH_SIZE" = some s ∧ atoi s > 1)
    ∧ (∀ s, sample_getenv "4" "CTXJPEG_FB_SW_BATCH_SIZE" = some s → atoi s > 1 →
        ((init_decoder sample_compress (sample_getenv "4") atoi
            static_globals).decoder.concurrency : Int) = atoi s)
    ∧ ((¬ ∃ s, sample_getenv "4" "CTXJPEG_FB_SW_BATCH_SIZE" = some s ∧ atoi s > 1) →
        (init_decoder sample_compress (sample_getenv "4") atoi
            static_globals).decoder.concurrency = 1
        ∧ (init_decoder sample_compress (sample_getenv "4") atoi
            static_globals).decoder.completion_handling = 0)
    ∧ ((init_decoder sample_compress (sample_getenv "4") atoi
            static_globals).decoder.completion_handling &&& BATCH_DECODING ≠ 0 →
        (init_decoder sample_compress (sample_getenv "4") atoi
            static_globals).entries.batch_decode ≠ none) :=
  ⟨atoi_le, by decide,
    C11_capabilities_after_init sample_compress (sample_getenv "4") atoi atoi_le⟩

end CtxJpeg

namespace H264

/-! ## Bit masks: lemmas -/

theorem mask_of_and {α : Type} [DecidableEq α] (val : α → Nat)
    (h : ∀ a o, val o &&& val a = if a = o then val o else 0) (l : List α) (o : α) :
    mask_of val l &&& val o = if o ∈ l then val o else 0 := by
  induction l with
  | nil => simp [mask_of]
  | cons a l ih =>
    rw [mask_of, Nat.and_comm, Nat.and_or_distrib_left, h a o, Nat.and_comm, ih]
    by_cases h1 : a = o
    · subst h1
      by_cases h2 : a ∈ l <;> simp [h2]
    · have h3 : ¬ o = a := fun e => h1 e.symm
      by_cases h2 : o ∈ l <;> simp [h1, h2, h3]

theorem option_val_and (a o : H264Option) :
    o.val &&& a.val = if a = o then o.val else 0 := by
  cases a <;> cases o <;> decide

theorem chroma_val_and (a o : ChromaFormat) :
    o.val &&& a.val = if a = o then o.val else 0 := by
  cases a <;> cases o <;> decide

theorem option_mask_lt (l : List H264Option) : option_mask l < 2 ^ 5 := by
  induction l with
  | nil => decide
  | cons a l ih =>
    have ha : a.val < 2 ^ 5 := by cases a <;> decide
    exact Nat.or_lt_two_pow ha ih

theorem chroma_mask_lt (l : List ChromaFormat) : chroma_mask l < 2 ^ 4 := by
  induction l with
  | nil => decide
  | cons a l ih =>
    have ha : a.val < 2 ^ 4 := by cases a <;> decide
    exact Nat.or_lt_two_pow ha ih

theorem bits_of_option_mask : ∀ m, m < 2 ^ 5 →
    m = (m &&& 1) ||| (m &&& 2) ||| (m &&& 4) ||| (m &&& 8) ||| (m &&& 16) := by
  decide

theorem bits_of_chroma_mask : ∀ m, m < 2 ^ 4 →
    m = (m &&& 1) ||| (m &&& 2) ||| (m &&& 4) ||| (m &&& 8) := by
  decide

theorem option_mask_mem (l : List H264Option) (o : H264Option) :
    o ∈ l ↔ option_mask l &&& o.val ≠ 0 := by
  have h := mask_of_and H264Option.val option_val_and l o
  have hv : o.val ≠ 0 := by cases o <;> decide
  unfold option_mask
  rw [h]
  by_cases hm : o ∈ l <;> simp [hm, hv]

theorem chroma_mask_mem (l : List ChromaFormat) (o : ChromaFormat) :
    o ∈ l ↔ chroma_mask l &&& o.val ≠ 0 := by
  have h := mask_of_and ChromaFormat.val chroma_val_and l o
  have hv : o.val ≠ 0 := by cases o <;> decide
  unfold chroma_mask
  rw [h]
  by_cases hm : o ∈ l <;> simp [hm, hv]

theorem option_mask_eq_iff (l1 l2 : List H264Option) :
    option_mask l1 = option_mask l2 ↔ ∀ o, o ∈ l1 ↔ o ∈ l2 := by
  constructor
  · intro h o
    rw [option_mask_mem, option_mask_mem, h]
  · intro h
    have e : ∀ o : H264Option, option_mask l1 &&& o.val = option_mask l2 &&& o.val := by
      intro o
      unfold option_mask
      rw [mask_of_and H264Option.val option_val_and, mask_of_and H264Option.val option_val_and]
      by_cases hm : o ∈ l1
      · simp [hm, (h o).1 hm]
      · have hm2 : o ∉ l2 := fun x => hm ((h o).2 x)
        simp [hm, hm2]
    rw [bits_of_option_mask _ (option_mask_lt l1), bits_of_option_mask _ (option_mask_lt l2)]
    have e1 := e .H264_OPTION_LOSSLESS
    have e2 := e .H264_OPTION_WINDOW_SUPPORT
    have e3 := e .H264_OPTION_PREFER_TEXT_RECTS
    have e4 := e .H264_OPTION_SMALL_FRAME_SUPPORT
    have e5 := e .H264_OPTION_FORCE_FULL_RENEG
    simp only [H264Option.val] at e1 e2 e3 e4 e5
    rw [e1, e2, e3, e4, e5]

theorem chroma_mask_eq_iff (l1 l2 : List ChromaFormat) :
    chroma_mask l1 = chroma_mask l2 ↔ ∀ o, o ∈ l1 ↔ o ∈ l2 := by
  constructor
  · intro h o
    rw [chroma_mask_mem, chroma_mask_mem, h]
  · intro h
    have e : ∀ o : ChromaFormat, chroma_mask l1 &&& o.val = chroma_mask l2 &&& o.val := by
      intro o
      unfold chroma_mask
      rw [mask_of_and ChromaFormat.val chroma_val_and, mask_of_and ChromaFormat.val chroma_val_and]
      by_cases hm : o ∈ l1
      · simp [hm, (h o).1 hm]
      · have hm2 : o ∉ l2 := fun x => hm ((h o).2 x)
        simp [hm, hm2]
    rw [bits_of_chroma_mask _ (chroma_mask_lt l1), bits_of_chroma_mask _ (chroma_mask_lt l2)]
    have e1 := e .H264_CHROMA_FORMAT_400
    have e2 := e .H264_CHROMA_FORMAT_420
    have e3 := e .H264_CHROMA_FORMAT_422
    have e4 := e .H264_CHROMA_FORMAT_444
    simp only [ChromaFormat.val] at e1 e2 e3 e4
    rw [e1, e2, e3, e4]

/-! ## The engine: lemmas -/

theorem upsert_upsert (o : OverlayObject) (s : List OverlayObject) :
    upsert o (upsert o s) = upsert o s := by
  induction s with
  | nil => simp [upsert]
  | cons p s ih =>
    by_cases h : p.rect = o.rect
    · simp [upsert, h]
    · simp [upsert, h, ih]

theorem remove_absent (rect : SIGNED_RECT) (s : List OverlayObject)
    (h : ∀ p ∈ s, p.rect ≠ rect) : remove rect s = s := by
  unfold remove
  apply List.filter_eq_self.2
  intro p hp
  simpa using h p hp

theorem remove_remove (rect : SIGNED_RECT) (s : List OverlayObject) :
    remove rect (remove rect s) = remove rect s := by
  unfold remove
  rw [List.filter_filter]
  congr 1
  funext p
  simp

theorem apply_op_twice (s : List OverlayObject) (b : image_buf) :
    apply_op (apply_op s b) b = apply_op s b := by
  unfold apply_op
  cases b.lossless_op
  · exact upsert_upsert _ _
  · exact remove_remove _ _
  · exact upsert_upsert _ _
  · exact upsert_upsert _ _

/-- C12: the five `H264Option` values are pairwise distinct single-bit values, and so are
the four `ChromaFormat` values; hence two sets of options (or of chroma formats) have the
same bitwise OR of their members exactly when they are the same set, and an option is a
member of a set exactly when the set's mask AND the option is not 0. -/
theorem C12_option_bitmask_encoding :
    (∀ o : H264Option, ∃ k, o.val = 2 ^ k) ∧ Function.Injective H264Option.val
    ∧ (∀ c : ChromaFormat, ∃ k, c.val = 2 ^ k) ∧ Function.Injective ChromaFormat.val
    ∧ (∀ (l1 l2 : List H264Option), option_mask l1 = option_mask l2 ↔ ∀ o, o ∈ l1 ↔ o ∈ l2)
    ∧ (∀ (l1 l2 : List ChromaFormat), chroma_mask l1 = chroma_mask l2 ↔ ∀ c, c ∈ l1 ↔ c ∈ l2)
    ∧ (∀ (l : List H264Option) (o : H264Option), o ∈ l ↔ option_mask l &&& o.val ≠ 0)
    ∧ (∀ (l : List ChromaFormat) (c : ChromaFormat), c ∈ l ↔ chroma_mask l &&& c.val ≠ 0) := by
  refine ⟨?_, ?_, ?_, ?_, option_mask_eq_iff, chroma_mask_eq_iff, option_mask_mem,
    chroma_mask_mem⟩
  · intro o
    cases o
    · exact ⟨0, rfl⟩
    · exact ⟨1, rfl⟩
    · exact ⟨2, rfl⟩
    · exact ⟨3, rfl⟩
    · exact ⟨4, rfl⟩
  · intro a b h
    cases a <;> cases b <;> first | rfl | exact absurd h (by decide)
  · intro c
    cases c
    · exact ⟨0, rfl⟩
    · exact ⟨1, rfl⟩
    · exact ⟨2, rfl⟩
    · exact ⟨3, rfl⟩
  · intro a b h
    cases a <;> cases b <;> first | rfl | exact absurd h (by decide)

/-- C13: `H264_INVALID_CONTEXT` and `CANV_INVALID_CONTEXT` are 0, and a handle, being an
`unsigned int`, is greater than 0 exactly when it differs from the invalid handle of its
kind. -/
theorem C13_zero_is_invalid_handle :
    H264_INVALID_CONTEXT = 0 ∧ CANV_INVALID_CONTEXT = 0
    ∧ (∀ h : H264_context, 0 < h ↔ h ≠ H264_INVALID_CONTEXT)
    ∧ (∀ h : CANV_context, 0 < h ↔ h ≠ CANV_INVALID_CONTEXT)
    ∧ (∀ i : Int, 0 < to_handle i ↔ to_handle i ≠ H264_INVALID_CONTEXT) := by
  refine ⟨rfl, rfl, ?_, ?_, ?_⟩
  · intro h; exact Nat.pos_iff_ne_zero
  · intro h; exact Nat.pos_iff_ne_zero
  · intro i; exact Nat.pos_iff_ne_zero

/-! ## Claims on the engine -/

/-- C15: for every engine state, context handle and byte strings `A` and `B`,
`decode_frame(A, last = false)` followed by `decode_frame(B, last = true)` gives the same
result (success or the same failure) and the same engine state, decoded picture included,
as the single call `decode_frame(A followed by B, last = true)`. -/
theorem C15_chunk_reassembly (c : Collaborators) (cxt : H264_context) (A B : List Nat)
    (s : Engine) :
    decode_frame c cxt B true (decode_frame c cxt A false s).2
      = decode_frame c cxt (A ++ B) true s := by
  cases hx : s.contexts cxt with
  | none => simp [decode_frame, hx]
  | some x =>
    by_cases hst : x.state = .ACCUMULATING
    · have h1 : decode_frame c cxt A false s
          = (.ok (), s.set_context cxt { x with accumulated := x.accumulated ++ A }) := by
        simp [decode_frame, hx, hst]
      have hx1 : (s.set_context cxt { x with accumulated := x.accumulated ++ A }).contexts cxt
          = some { x with accumulated := x.accumulated ++ A } := by
        simp [Engine.set_context]
      rw [h1]
      cases hd : c.decode (x.accumulated ++ (A ++ B)) with
      | none =>
        have hd1 : c.decode (x.accumulated ++ A ++ B) = none := by
          rw [List.append_assoc]; exact hd
        simp [decode_frame, hx1, hx, hst, hd, hd1, Engine.set_context]
      | some picture =>
        have hd1 : c.decode (x.accumulated ++ A ++ B) = some picture := by
          rw [List.append_assoc]; exact hd
        simp [decode_frame, hx1, hx, hst, hd, hd1, Engine.set_context]
    · simp [decode_frame, hst, hx]

/-- C16: upserting the same object twice gives the store, hence the composite output, of
upserting it once, whether done on the store or through `compose_with_rects`; and the
delete operation for a rectangle that is not in the store leaves the store unchanged and
makes `compose_with_rects` behave as with no object at all, so it is never an error. -/
theorem C16_overlay_idempotence (c : Collaborators) (cxt : H264_context) (last : Bool)
    (s : Engine) (x : DecodeContext) (k : Canvas) (b : image_buf)
    (hx : s.contexts cxt = some x) (hk : s.canvases x.canvas = some k)
    (hdel : b.lossless_op = .IMAGE_OP_DELETE_LOSSLESS)
    (habsent : ∀ p ∈ k.overlays, p.rect ≠ (object_of .lossless b).rect) :
    (∀ (o : OverlayObject) (store : List OverlayObject),
        upsert o (upsert o store) = upsert o store
        ∧ ∀ px py below, draw_objects c (upsert o (upsert o store)) px py below
            = draw_objects c (upsert o store) px py below)
    ∧ (∀ d : image_buf,
        compose_with_rects c cxt [d, d] last s = compose_with_rects c cxt [d] last s)
    ∧ remove (object_of .lossless b).rect k.overlays = k.overlays
    ∧ compose_with_rects c cxt [b] last s = compose_with_rects c cxt [] last s := by
  refine ⟨?_, ?_, remove_absent _ _ habsent, ?_⟩
  · intro o store
    refine ⟨upsert_upsert o store, ?_⟩
    intro px py below
    rw [upsert_upsert]
  · intro d
    unfold compose_with_rects
    simp only [List.foldl_cons, List.foldl_nil, apply_op_twice]
  · have h : apply_op k.overlays b = k.overlays := by
      unfold apply_op
      rw [hdel]
      exact remove_absent _ _ habsent
    unfold compose_with_rects
    simp only [hx, hk, List.foldl_cons, List.foldl_nil, h]

/-- Witness for C16: on the sample engine with the object of `sample_draw`, at the rectangle
(1, 0) of size 1 x 1, in the overlay store: a delete operation for the rectangle at (0, 0)
of size 1 x 1, which the store does not hold; the call succeeds and the store still holds
the object of `sample_draw`. -/
theorem C16_overlay_idempotence_witness :
    (sample_overlaid.canvases 1).map (fun k => k.overlays.map (fun o => o.rect))
        = some [{ x0 := 1, y0 := 0, x1 := 2, y1 := 1 }]
    ∧ (object_of .lossless sample_delete).rect = { x0 := 0, y0 := 0, x1 := 1, y1 := 1 }
    ∧ bool_of (compose_with_rects sample_collaborators 1 [sample_delete] true
        sample_overlaid).1 = true
    ∧ (∀ (o : OverlayObject) (store : List OverlayObject),
        upsert o (upsert o store) = upsert o store
        ∧ ∀ px py below,
            draw_objects sample_collaborators (upsert o (upsert o store)) px py below
              = draw_objects sample_collaborators (upsert o store) px py below)
    ∧ (∀ d : image_buf,
        compose_with_rects sample_collaborators 1 [d, d] true sample_overlaid
          = compose_with_rects sample_collaborators 1 [d] true sample_overlaid)
    ∧ remove (object_of .lossless sample_delete).rect [object_of .lossless sample_draw]
        = [object_of .lossless sample_draw]
    ∧ compose_with_rects sample_collaborators 1 [sample_delete] true sample_overlaid
        = compose_with_rects sample_collaborators 1 [] true sample_overlaid :=
  ⟨by decide, by decide, by decide,
    C16_overlay_idempotence sample_collaborators 1 true sample_overlaid _
      { width := 2, height := 1, pix_format := .PIXEL_FORMAT_ARGB, x_off := 0, y_off := 0
        buffer := fun _ _ => 0, overlays := [object_of .lossless sample_draw], dirty := false
        shown := fun _ _ => 0 }
      sample_delete rfl rfl rfl
      (by
        intro p hp
        have hp2 : p ∈ [object_of .lossless sample_draw] := hp
        rw [List.mem_singleton] at hp2
        subst hp2
        decide)⟩

/-- C17: for a canvas and a destination rectangle that exceeds its bounds,
`create_h264_context` returns the invalid handle, `copy_image` and `fill_rect` return
false, each with the error `OutOfBounds`, and each leaves the engine, the canvas pixel
buffer included, as it was. -/
theorem C17_bounds_invariant (c : Collaborators) (s : Engine) (cxt : CANV_context)
    (k : Canvas) (dest : SIGNED_RECT) (fmt : ChromaFormat) (source : image_buf) (rgb : Nat)
    (hk : s.canvases cxt = some k) (hexceeds : dest.exceeds k.width k.height = true) :
    create_h264_context c cxt dest fmt s = (.error .OutOfBounds, s)
    ∧ handle_of (create_h264_context c cxt dest fmt s).1 = H264_INVALID_CONTEXT
    ∧ copy_image cxt dest source s = (.error .OutOfBounds, s)
    ∧ bool_of (copy_image cxt dest source s).1 = false
    ∧ fill_rect cxt dest rgb s = (.error .OutOfBounds, s)
    ∧ bool_of (fill_rect cxt dest rgb s).1 = false
    ∧ (create_h264_context c cxt dest fmt s).2.buffer_of cxt = s.buffer_of cxt
    ∧ (copy_image cxt dest source s).2.buffer_of cxt = s.buffer_of cxt
    ∧ (fill_rect cxt dest rgb s).2.buffer_of cxt = s.buffer_of cxt := by
  have h1 : create_h264_context c cxt dest fmt s = (.error .OutOfBounds, s) := by
    unfold create_h264_context
    simp only [hk, hexceeds, if_true]
  have h2 : copy_image cxt dest source s = (.error .OutOfBounds, s) := by
    unfold copy_image
    simp only [hk, hexceeds, if_true]
  have h3 : fill_rect cxt dest rgb s = (.error .OutOfBounds, s) := by
    unfold fill_rect
    simp only [hk, hexceeds, if_true]
  refine ⟨h1, ?_, h2, ?_, h3, ?_, ?_, ?_, ?_⟩
  · rw [h1]; rfl
  · rw [h2]; rfl
  · rw [h3]; rfl
  · rw [h1]
  · rw [h2]
  · rw [h3]

/-- Witness for C17: the 2 x 1 canvas of the sample engine and the rectangle from (1, 0) to
(3, 1), which passes its right edge. -/
theorem C17_bounds_invariant_witness :
    ({ x0 := 1, y0 := 0, x1 := 3, y1 := 1 } : SIGNED_RECT).exceeds 2 1 = true
    ∧ create_h264_context sample_collaborators 1 { x0 := 1, y0 := 0, x1 := 3, y1 := 1 }
          .H264_CHROMA_FORMAT_420 sample_engine = (.error .OutOfBounds, sample_engine)
    ∧ handle_of (create_h264_context sample_collaborators 1
          { x0 := 1, y0 := 0, x1 := 3, y1 := 1 } .H264_CHROMA_FORMAT_420 sample_engine).1
        = H264_INVALID_CONTEXT
    ∧ copy_image 1 { x0 := 1, y0 := 0, x1 := 3, y1 := 1 } sample_delete sample_engine
        = (.error .OutOfBounds, sample_engine)
    ∧ bool_of (copy_image 1 { x0 := 1, y0 := 0, x1 := 3, y1 := 1 } sample_delete
        sample_engine).1 = false
    ∧ fill_rect 1 { x0 := 1, y0 := 0, x1 := 3, y1 := 1 } 255 sample_engine
        = (.error .OutOfBounds, sample_engine)
    ∧ bool_of (fill_rect 1 { x0 := 1, y0 := 0, x1 := 3, y1 := 1 } 255 sample_engine).1 = false
    ∧ (create_h264_context sample_collaborators 1 { x0 := 1, y0 := 0, x1 := 3, y1 := 1 }
          .H264_CHROMA_FORMAT_420 sample_engine).2.buffer_of 1 = sample_engine.buffer_of 1
    ∧ (copy_image 1 { x0 := 1, y0 := 0, x1 := 3, y1 := 1 } sample_delete
          sample_engine).2.buffer_of 1 = sample_engine.buffer_of 1
    ∧ (fill_rect 1 { x0 := 1, y0 := 0, x1 := 3, y1 := 1 } 255 sample_engine).2.buffer_of 1
        = sample_engine.buffer_of 1 :=
  ⟨by decide,
    C17_bounds_invariant sample_collaborators sample_engine 1
      { width := 2, height := 1, pix_format := .PIXEL_FORMAT_ARGB, x_off := 0, y_off := 0
        buffer := fun _ _ => 0, overlays := [], dirty := false, shown := fun _ _ => 0 }
      { x0 := 1, y0 := 0, x1 := 3, y1 := 1 } .H264_CHROMA_FORMAT_420 sample_delete 255
      rfl (by decide)⟩

end H264
